import Mathlib

/-!
Emulated Logitech USB microphone

A shallow embedding of `Source/Core/Core/IOS/USB/Emulated/LogitechMic.h` and
`LogitechMic.cpp`: the descriptor tables, the sampler state, the interface
selection, the control-request dispatcher with its three audio-class handlers,
and the isochronous feeder.

Machine integers are natural numbers with the truncations of the source made
explicit (`% 256` for `u8`, `% 65536` for `u16`, `% 2 ^ 32` for `u32`).
Effects on collaborators that live outside these two files (IPC replies,
scheduled completions, packet return values) are recorded as lists in the
result of each operation.
-/

namespace Dolphin

/-! ## Names declared outside the two source files -/

/-- Return codes of the IPC layer (`IPC_SUCCESS`, `IPC_STALL`, `IPC_EINVAL`).
Their declarations are not in the two source files, so the device model is
parameterised by them; the source only relies on their names and, for
`IPC_STALL`, on its sign when a handler result is tested with `ret < 0`. -/
structure IPCReturn where
  IPC_SUCCESS : Int
  IPC_STALL : Int
  IPC_EINVAL : Int
deriving DecidableEq, Repr

/-- Modelled from the spec: the return codes are declared outside the two
source files. Success is zero, the stall and invalid-argument failures are
negative codes. Used only to evaluate the model on concrete inputs. -/
def ipcReturn : IPCReturn :=
  { IPC_SUCCESS := 0, IPC_STALL := -7004, IPC_EINVAL := -4 }

/-- Modelled from the spec: direction bit "host to device" of `bmRequestType`
(USB 2.0, table 9-2); the enumeration is declared in `Core/IOS/USB/Common.h`. -/
def DIR_HOST2DEVICE : Nat := 0
/-- Modelled from the spec: direction bit "device to host" of `bmRequestType`. -/
def DIR_DEVICE2HOST : Nat := 1
/-- Modelled from the spec: request type "standard" of `bmRequestType`. -/
def TYPE_STANDARD : Nat := 0
/-- Modelled from the spec: request type "class" of `bmRequestType`. -/
def TYPE_CLASS : Nat := 1
/-- Modelled from the spec: recipient "device" of `bmRequestType`. -/
def REC_DEVICE : Nat := 0
/-- Modelled from the spec: recipient "interface" of `bmRequestType`. -/
def REC_INTERFACE : Nat := 1
/-- Modelled from the spec: recipient "endpoint" of `bmRequestType`. -/
def REC_ENDPOINT : Nat := 2

/-- Modelled from the spec: standard request code `GET_DESCRIPTOR` (USB 2.0, table 9-4). -/
def REQUEST_GET_DESCRIPTOR : Nat := 6
/-- Modelled from the spec: standard request code `SET_INTERFACE` (USB 2.0, table 9-4). -/
def REQUEST_SET_INTERFACE : Nat := 11
/-- Modelled from the spec: audio class request code `SET_CUR` (USB Audio 1.0, table A-9). -/
def REQUEST_SET_CUR : Nat := 0x01
/-- Modelled from the spec: audio class request code `GET_CUR`. -/
def REQUEST_GET_CUR : Nat := 0x81
/-- Modelled from the spec: audio class request code `SET_MIN`. -/
def REQUEST_SET_MIN : Nat := 0x02
/-- Modelled from the spec: audio class request code `GET_MIN`. -/
def REQUEST_GET_MIN : Nat := 0x82
/-- Modelled from the spec: audio class request code `SET_MAX`. -/
def REQUEST_SET_MAX : Nat := 0x03
/-- Modelled from the spec: audio class request code `GET_MAX`. -/
def REQUEST_GET_MAX : Nat := 0x83
/-- Modelled from the spec: audio class request code `SET_RES`. -/
def REQUEST_SET_RES : Nat := 0x04
/-- Modelled from the spec: audio class request code `GET_RES`. -/
def REQUEST_GET_RES : Nat := 0x84

/-- Modelled from the spec: the routing key of a control transfer is
`(requestType << 8) | request`, and `USBHDR` (declared in
`Core/IOS/USB/Common.h`) builds the same key from the three parts of
`bmRequestType`: direction in bit 7, type in bits 5..6, recipient in bits 0..4. -/
def USBHDR (dir type recipient request : Nat) : Nat :=
  ((((dir <<< 7) ||| (type <<< 5) ||| recipient) <<< 8) ||| request) % 65536

/-! ### Emulated memory -/

/-- Modelled from the spec: the virtual memory accessor used to read and write
request payloads (`Core/HW/Memmap.h`). It is a byte store indexed by 32-bit
address, together with the byte order of its 16-bit accessors and the
predicate telling which `(address, size)` ranges `GetPointerForRange` resolves. -/
structure Memory where
  bytes : Nat → Nat
  big_endian : Bool
  range_ok : Nat → Nat → Bool

/-- Address arithmetic on `u32` (`cmd->data_address + k`). -/
def u32add (address k : Nat) : Nat := (address + k) % 2 ^ 32

namespace Memory

/-- Modelled from the spec: `Read_U8(address)` reads one payload byte. -/
def Read_U8 (m : Memory) (address : Nat) : Nat := m.bytes address % 256

/-- Modelled from the spec: `Write_U8(value, address)` writes one payload byte. -/
def Write_U8 (m : Memory) (value address : Nat) : Memory :=
  { m with bytes := fun a => if a = address then value % 256 else m.bytes a }

/-- Modelled from the spec: `Read_U16(address)` reads two payload bytes in the
byte order of the accessor. -/
def Read_U16 (m : Memory) (address : Nat) : Nat :=
  if m.big_endian then
    ((m.Read_U8 address) <<< 8) ||| m.Read_U8 (u32add address 1)
  else
    m.Read_U8 address ||| ((m.Read_U8 (u32add address 1)) <<< 8)

/-- Modelled from the spec: `Write_U16(value, address)` writes two payload
bytes in the byte order of the accessor. -/
def Write_U16 (m : Memory) (value address : Nat) : Memory :=
  if m.big_endian then
    (m.Write_U8 ((value % 65536) >>> 8) address).Write_U8 (value % 256) (u32add address 1)
  else
    (m.Write_U8 (value % 256) address).Write_U8 ((value % 65536) >>> 8) (u32add address 1)

/-- Modelled from the spec: copying `size` bytes from a source array into
memory at `address` (`CopyToEmu`, `memcpy`). The result is `none` when the
copy reads outside the source array, which leaves the destination undefined. -/
def CopyToEmu (m : Memory) (address : Nat) (src : List Nat) (size : Nat) : Option Memory :=
  if size ≤ src.length then
    some { m with bytes := fun a =>
      if address ≤ a ∧ a < address + size then src.getD (a - address) 0 else m.bytes a }
  else
    none

/-- The `size` bytes found at `address`, as seen through the host pointer that
`GetPointerForRange(address, size)` returns. -/
def range (m : Memory) (address size : Nat) : List Nat :=
  (List.range size).map fun i => m.bytes (address + i)

end Memory

/-! ### Transfer commands -/

/-- Modelled from the spec: a control transfer (`CtrlMessage`, declared in
`Core/IOS/USB/Common.h`): request type, request code, value, index, length,
payload address and the completion sink `ios_request`. -/
structure CtrlMessage where
  ios_request : Nat
  data_address : Nat
  request_type : Nat
  request : Nat
  value : Nat
  index : Nat
  length : Nat
deriving DecidableEq, Repr

/-- The fields of a control transfer are within their C++ types
(`u8 request_type, request`, `u16 value, index, length`, `u32 data_address`). -/
def CtrlMessage.WellTyped (cmd : CtrlMessage) : Prop :=
  cmd.request_type < 256 ∧ cmd.request < 256 ∧ cmd.value < 65536 ∧ cmd.index < 65536 ∧
    cmd.length < 65536 ∧ cmd.data_address < 2 ^ 32

instance (cmd : CtrlMessage) : Decidable cmd.WellTyped := by
  unfold CtrlMessage.WellTyped; infer_instance

/-- Modelled from the spec: `FillBuffer(src, size)` of a transfer command
copies `size` bytes of `src` into the payload at `data_address`. -/
def CtrlMessage.FillBuffer (cmd : CtrlMessage) (memory : Memory) (src : List Nat) (size : Nat) :
    Option Memory :=
  memory.CopyToEmu cmd.data_address src size

/-- Modelled from the spec: an isochronous transfer (`IsoMessage`, declared in
`Core/IOS/USB/Common.h`): endpoint, requested length, per-packet sizes,
payload address and the completion sink. -/
structure IsoMessage where
  ios_request : Nat
  data_address : Nat
  length : Nat
  num_packets : Nat
  endpoint : Nat
  packet_sizes : List Nat
deriving DecidableEq, Repr

/-- Modelled from the spec: `FillBuffer(src, size)` of a transfer command
copies `size` bytes of `src` into the payload at `data_address`. -/
def IsoMessage.FillBuffer (cmd : IsoMessage) (memory : Memory) (src : List Nat) (size : Nat) :
    Option Memory :=
  memory.CopyToEmu cmd.data_address src size

/-! ## `LogitechMic.h` -/

/-- A `std::array<T, 2>` of unsigned integers, as used for `vol` and `srate`. -/
structure Array2 where
  e0 : Nat
  e1 : Nat
deriving DecidableEq, Repr

/-- Element read `a[i]`; every access in the source has `i < 2`. -/
def Array2.get (a : Array2) (i : Nat) : Nat :=
  if i = 0 then a.e0 else if i = 1 then a.e1 else 0

/-- Element write `a[i] = v`; every access in the source has `i < 2`. -/
def Array2.set (a : Array2) (i v : Nat) : Array2 :=
  if i = 0 then { a with e0 := v } else if i = 1 then { a with e1 := v } else a

/-- The sampler state `struct LogitechMicState`. -/
structure LogitechMicState where
  sample_on : Bool
  mute : Bool
  vol : Array2
  srate : Array2
  freq : Int
  gain : Int
  ec_reset : Bool
  sp_on : Bool
deriving DecidableEq, Repr

/-- `LogitechMicState::DEFAULT_SAMPLING_RATE`. -/
def LogitechMicState.DEFAULT_SAMPLING_RATE : Nat := 48000

/-- Modelled from the spec: the audio backend handle (`MicrophoneLogitech`,
declared in `Microphone-Logitech.h`). Only the notifications it receives
through `SetSamplingRate` are recorded. -/
structure MicrophoneLogitech where
  sampling_rates : List Nat
deriving DecidableEq, Repr

/-- Modelled from the spec: `SetSamplingRate(sr)` notifies the backend of a new rate. -/
def MicrophoneLogitech.SetSamplingRate (m : MicrophoneLogitech) (sr : Nat) : MicrophoneLogitech :=
  { m with sampling_rates := m.sampling_rates ++ [sr] }

/-- Modelled from the spec: `struct ConfigDescriptor` of `Core/IOS/USB/Common.h`,
the 9-byte standard configuration descriptor. -/
structure ConfigDescriptor where
  bLength : Nat
  bDescriptorType : Nat
  wTotalLength : Nat
  bNumInterfaces : Nat
  bConfigurationValue : Nat
  iConfiguration : Nat
  bmAttributes : Nat
  MaxPower : Nat
deriving DecidableEq, Repr

/-- Modelled from the spec: `struct InterfaceDescriptor` of `Core/IOS/USB/Common.h`,
the 9-byte standard interface descriptor. -/
structure InterfaceDescriptor where
  bLength : Nat
  bDescriptorType : Nat
  bInterfaceNumber : Nat
  bAlternateSetting : Nat
  bNumEndpoints : Nat
  bInterfaceClass : Nat
  bInterfaceSubClass : Nat
  bInterfaceProtocol : Nat
  iInterface : Nat
deriving DecidableEq, Repr

/-- Modelled from the spec: `struct EndpointDescriptor` of `Core/IOS/USB/Common.h`. -/
structure EndpointDescriptor where
  bLength : Nat
  bDescriptorType : Nat
  bEndpointAddress : Nat
  bmAttributes : Nat
  wMaxPacketSize : Nat
  bInterval : Nat
deriving DecidableEq, Repr

/-- The mutable members of `class LogitechMic`. -/
structure LogitechMic where
  m_sampler : LogitechMicState
  m_active_interface : Nat
  m_device_attached : Bool
  m_microphone : Option MicrophoneLogitech
deriving DecidableEq, Repr

namespace LogitechMic

/-- The member `m_vid`. -/
def m_vid : Nat := 0x046d
/-- The member `m_pid`. -/
def m_pid : Nat := 0x0a03

/-- The device as constructed: `m_sampler{}`, `m_active_interface = 0`,
`m_device_attached = false`, `m_microphone{}`. -/
def init : LogitechMic :=
  { m_sampler :=
      { sample_on := false, mute := false, vol := ⟨0, 0⟩, srate := ⟨0, 0⟩,
        freq := 0, gain := 0, ec_reset := false, sp_on := false }
    m_active_interface := 0
    m_device_attached := false
    m_microphone := none }

/-- The member `m_config_descriptor`. -/
def m_config_descriptor : List ConfigDescriptor :=
  [⟨0x09, 0x02, 0x00b1, 0x02, 0x01, 0x00, 0x80, 0x2d⟩]

/-- The member `m_interface_descriptor`. -/
def m_interface_descriptor : List (List InterfaceDescriptor) :=
  [ [ ⟨0x09, 0x04, 0x00, 0x00, 0x00, 0x01, 0x01, 0x00, 0x00⟩ ],
    [ ⟨0x09, 0x04, 0x01, 0x00, 0x00, 0x01, 0x02, 0x00, 0x00⟩,
      ⟨0x09, 0x04, 0x01, 0x01, 0x01, 0x01, 0x02, 0x00, 0x00⟩,
      ⟨0x09, 0x04, 0x01, 0x02, 0x01, 0x01, 0x02, 0x00, 0x00⟩ ] ]

/-- The constant `ENDPOINT_AUDIO_IN`. -/
def ENDPOINT_AUDIO_IN : Nat := 0x81

/-- The member `m_endpoint_descriptor`. -/
def m_endpoint_descriptor : List (List EndpointDescriptor) :=
  [ [ ⟨0x09, 0x05, 0x81, 0x05, 0x0064, 0x01⟩ ],
    [ ⟨0x09, 0x05, 0x81, 0x05, 0x00c8, 0x01⟩ ] ]

/-- The member `m_full_descriptor`, the merged descriptor blob. -/
def m_full_descriptor : List Nat :=
  [ -- Configuration 1
    0x09, 0x02, 0xb1, 0x00, 0x02, 0x01, 0x00, 0x80, 0x2d,
    -- Interface 0, Alternate Setting 0, Audio Control
    0x09, 0x04, 0x00, 0x00, 0x00, 0x01, 0x01, 0x00, 0x00,
    -- Audio Control Interface
    0x09, 0x24, 0x01, 0x00, 0x01, 0x28, 0x00, 0x01, 0x01,
    -- Audio Input Terminal
    0x0c, 0x24, 0x02, 0x01, 0x01, 0x02, 0x02, 0x02, 0x03, 0x00, 0x00, 0x00,
    -- Audio Output Terminal
    0x09, 0x24, 0x03, 0x02, 0x01, 0x01, 0x01, 0x03, 0x00,
    -- Audio Feature Unit
    0x0a, 0x24, 0x06, 0x03, 0x01, 0x01, 0x01, 0x02, 0x02, 0x00,
    -- Interface 1, Alternate Setting 0, Audio Streaming - Zero Bandwith
    0x09, 0x04, 0x01, 0x00, 0x00, 0x01, 0x02, 0x00, 0x00,
    -- Interface 1, Alternate Setting 1, Audio Streaming - 1 channel
    0x09, 0x04, 0x01, 0x01, 0x01, 0x01, 0x02, 0x00, 0x00,
    -- Audio Streaming Interface
    0x07, 0x24, 0x01, 0x02, 0x01, 0x01, 0x00,
    -- Audio Type I Format
    0x17, 0x24, 0x02, 0x01, 0x01, 0x02, 0x10, 0x05,
    0x40, 0x1f, 0x00, 0x11, 0x2b, 0x00, 0x22, 0x56, 0x00, 0x44, 0xac, 0x00, 0x80, 0xbb, 0x00,
    -- Endpoint - Standard Descriptor
    0x09, 0x05, 0x81, 0x05, 0x64, 0x00, 0x01, 0x00, 0x00,
    -- Endpoint - Audio Streaming
    0x07, 0x25, 0x01, 0x01, 0x00, 0x00, 0x00,
    -- Interface 1, Alternate Setting 2, Audio Streaming - 2 channels
    0x09, 0x04, 0x01, 0x02, 0x01, 0x01, 0x02, 0x00, 0x00,
    -- Audio Streaming Interface
    0x07, 0x24, 0x01, 0x02, 0x01, 0x01, 0x00,
    -- Audio Type I Format
    0x17, 0x24, 0x02, 0x01, 0x02, 0x02, 0x10, 0x05,
    0x40, 0x1f, 0x00, 0x11, 0x2b, 0x00, 0x22, 0x56, 0x00, 0x44, 0xac, 0x00, 0x80, 0xbb, 0x00,
    -- Endpoint - Standard Descriptor
    0x09, 0x05, 0x81, 0x05, 0xc8, 0x00, 0x01, 0x00, 0x00,
    -- Endpoint - Audio Streaming
    0x07, 0x25, 0x01, 0x01, 0x00, 0x00, 0x00,
    -- Terminator
    0 ]

/-- The 800 bytes returned by `dummyData()`: `a[i] = (i / 100) % 2 ? 0xff : 0x00`. -/
def dummyData : List Nat :=
  (List.range 800).map fun i => if (i / 100) % 2 ≠ 0 then 0xff else 0x00

/-! ## `LogitechMic.cpp`: descriptor accessors and interface selection -/

/-- `GetConfigurations()`. -/
def GetConfigurations (_self : LogitechMic) : List ConfigDescriptor :=
  m_config_descriptor

/-- `GetInterfaces(config)`: `m_interface_descriptor[m_active_interface]`;
`none` when the index is outside the table. -/
def GetInterfaces (self : LogitechMic) (_config : Nat) : Option (List InterfaceDescriptor) :=
  m_interface_descriptor[self.m_active_interface]?

/-- `GetEndpoints(config, interface, alt)`: `m_endpoint_descriptor[m_active_interface]`;
`none` when the index is outside the table. -/
def GetEndpoints (self : LogitechMic) (_config _interface _alt : Nat) :
    Option (List EndpointDescriptor) :=
  m_endpoint_descriptor[self.m_active_interface]?

/-- `Attach()`: marks the device attached, constructing the backend handle if absent. -/
def Attach (self : LogitechMic) : Bool × LogitechMic :=
  if self.m_device_attached then
    (true, self)
  else
    (true, { self with
      m_microphone := if self.m_microphone.isNone then some ⟨[]⟩ else self.m_microphone
      m_device_attached := true })

/-- `ChangeInterface(interface)`: stores the `u8` argument and returns 0. -/
def ChangeInterface (self : LogitechMic) (interface : Nat) : Int × LogitechMic :=
  (0, { self with m_active_interface := interface })

/-- `AttachAndChangeInterface(interface)`. -/
def AttachAndChangeInterface (self : LogitechMic) (interface : Nat) : Bool × LogitechMic :=
  let a := self.Attach
  if !a.1 then
    (false, a.2)
  else if interface ≠ a.2.m_active_interface then
    let c := a.2.ChangeInterface interface
    (decide (c.1 = 0), c.2)
  else
    (true, a.2)

/-- `CancelTransfer(endpoint)`: logs and reports success. -/
def CancelTransfer (K : IPCReturn) (self : LogitechMic) (_endpoint : Nat) : Int × LogitechMic :=
  (K.IPC_SUCCESS, self)

/-- `GetNumberOfAltSettings(interface)`. -/
def GetNumberOfAltSettings (_self : LogitechMic) (_interface : Nat) : Int := 0

/-- `SetAltSetting(alt_setting)`: returns 0 and changes nothing. -/
def SetAltSetting (self : LogitechMic) (_alt_setting : Nat) : Int × LogitechMic :=
  (0, self)

/-! ## Audio-class handlers -/

/-- `USBGETAID(cs, request, index)`: `static_cast<u32>((cs << 24) | (request << 16) | index)`. -/
def USBGETAID (cs request index : Nat) : Nat :=
  ((cs <<< 24) ||| (request <<< 16) ||| index) % 2 ^ 32

/-- The control selector `cs = static_cast<u8>(cmd->value >> 8)`. -/
def selector (cmd : CtrlMessage) : Nat := (cmd.value >>> 8) % 256

/-- The channel number `cn = static_cast<u8>(cmd->value - 1)`; a zero low byte gives `0xff`. -/
def channel (cmd : CtrlMessage) : Nat := (cmd.value + 255) % 256

/-- The device value reported for internal volume `v` by GET_CUR:
`uint16_t vol = (v * 0x8800 + 127) / 255 + 0x8000`. -/
def volumeToDevice (v : Nat) : Nat :=
  ((v * 0x8800 + 127) / 255 + 0x8000) % 65536

/-- The internal volume stored by SET_CUR for the 16-bit value `d` read from
the payload: `vol -= 0x8000; vol = (vol * 255 + 0x4400) / 0x8800; if (vol > 255) vol = 255;`
with `vol` a `uint16_t`. -/
def volumeFromDevice (d : Nat) : Nat :=
  let vol := (d % 65536 + 65536 - 0x8000) % 65536
  let vol := ((vol * 255 + 0x4400) / 0x8800) % 65536
  if vol > 255 then 255 else vol

/-- Result of one of the audio-class handlers: the returned `int`, the device
state and the memory afterwards. -/
structure HandlerResult where
  ret : Int
  dev : LogitechMic
  memory : Memory

/-- `GetAudioControl(cmd)`. -/
def GetAudioControl (K : IPCReturn) (self : LogitechMic) (cmd : CtrlMessage) (memory : Memory) :
    HandlerResult :=
  let cs := selector cmd
  let cn := channel cmd
  let aid := USBGETAID cs cmd.request cmd.index
  if aid = USBGETAID 0 REQUEST_GET_CUR 0x0300 then
    { ret := 1, dev := self
      memory := memory.Write_U8 (if self.m_sampler.mute then 1 else 0) cmd.data_address }
  else if aid = USBGETAID 2 REQUEST_GET_CUR 0x0300 then
    if cn < 2 ∨ cn = 0xff then
      let vol := volumeToDevice (self.m_sampler.vol.get (if cn = 1 then 1 else 0))
      { ret := 2, dev := self
        memory := (memory.Write_U8 (vol &&& 0xFF) cmd.data_address).Write_U8 (vol >>> 8)
          (u32add cmd.data_address 1) }
    else
      { ret := K.IPC_STALL, dev := self, memory := memory }
  else if aid = USBGETAID 2 REQUEST_GET_MIN 0x0300 then
    if cn < 2 ∨ cn = 0xff then
      { ret := 2, dev := self, memory := memory.Write_U16 0x8001 cmd.data_address }
    else
      { ret := K.IPC_STALL, dev := self, memory := memory }
  else if aid = USBGETAID 2 REQUEST_GET_MAX 0x0300 then
    if cn < 2 ∨ cn = 0xff then
      { ret := 2, dev := self, memory := memory.Write_U16 0x0800 cmd.data_address }
    else
      { ret := K.IPC_STALL, dev := self, memory := memory }
  else if aid = USBGETAID 2 REQUEST_GET_RES 0x0300 then
    if cn < 2 ∨ cn = 0xff then
      { ret := 2, dev := self, memory := memory.Write_U16 0x0088 cmd.data_address }
    else
      { ret := K.IPC_STALL, dev := self, memory := memory }
  else
    { ret := K.IPC_STALL, dev := self, memory := memory }

/-- The volume branch of `SetAudioControl`: `a[i] = static_cast<u8>(vol)` only
when `a[i] != vol`. -/
def storeIfChanged (a : Array2) (i vol : Nat) : Array2 :=
  if a.get i ≠ vol then a.set i (vol % 256) else a

/-- `SetAudioControl(cmd)`. -/
def SetAudioControl (K : IPCReturn) (self : LogitechMic) (cmd : CtrlMessage) (memory : Memory) :
    HandlerResult :=
  let cs := selector cmd
  let cn := channel cmd
  let aid := USBGETAID cs cmd.request cmd.index
  if aid = USBGETAID 1 REQUEST_SET_CUR 0x0300 then
    { ret := 0
      dev := { self with m_sampler :=
        { self.m_sampler with mute := decide ((memory.Read_U8 cmd.data_address) &&& 0x01 ≠ 0) } }
      memory := memory }
  else if aid = USBGETAID 2 REQUEST_SET_CUR 0x0300 then
    if cn < 2 ∨ cn = 0xff then
      let vol := volumeFromDevice (memory.Read_U16 cmd.data_address)
      let vols :=
        if cn = 0xff then
          storeIfChanged (storeIfChanged self.m_sampler.vol 0 vol) 1 vol
        else
          storeIfChanged self.m_sampler.vol cn vol
      { ret := 0, dev := { self with m_sampler := { self.m_sampler with vol := vols } }
        memory := memory }
    else
      { ret := K.IPC_STALL, dev := self, memory := memory }
  else if aid = USBGETAID 7 REQUEST_SET_CUR 0x0300 then
    { ret := 0, dev := self, memory := memory }
  else
    { ret := K.IPC_STALL, dev := self, memory := memory }

/-- `EndpointAudioControl(cmd)`. -/
def EndpointAudioControl (K : IPCReturn) (self : LogitechMic) (cmd : CtrlMessage)
    (memory : Memory) : HandlerResult :=
  let cs := selector cmd
  let cn := channel cmd
  let aid := USBGETAID cs cmd.request cmd.index
  if aid = USBGETAID 1 REQUEST_SET_CUR 0x0081 then
    if cn = 0xff then
      let sr := (memory.Read_U8 cmd.data_address
        ||| ((memory.Read_U8 (u32add cmd.data_address 1)) <<< 8)
        ||| ((memory.Read_U8 (u32add cmd.data_address 2)) <<< 16)) % 2 ^ 32
      if self.m_sampler.srate.get 0 ≠ sr then
        { ret := 0
          dev := { self with
            m_sampler := { self.m_sampler with srate := self.m_sampler.srate.set 0 sr }
            m_microphone := self.m_microphone.map fun m => m.SetSamplingRate sr }
          memory := memory }
      else
        { ret := 0, dev := self, memory := memory }
    else
      { ret := 0, dev := self, memory := memory }
  else if aid = USBGETAID 1 REQUEST_GET_CUR 0x0081 then
    let srate0 := self.m_sampler.srate.get 0
    { ret := 3, dev := self
      memory :=
        ((memory.Write_U8 (srate0 &&& 0xff) cmd.data_address).Write_U8
            ((srate0 >>> 8) &&& 0xff) (u32add cmd.data_address 1)).Write_U8
          ((srate0 >>> 16) &&& 0xff) (u32add cmd.data_address 2) }
  else
    { ret := K.IPC_STALL, dev := self, memory := memory }

/-! ## Transfer submission -/

/-- Result of submitting a control, bulk or interrupt transfer: the returned
`int`, the device state, the memory (`none` when a copy read outside its
source array) and the values passed to `EnqueueIPCReply`, each with the
request it answers, in order. -/
structure CtrlResult where
  ret : Int
  dev : LogitechMic
  memory : Option Memory
  replies : List (Nat × Int)

/-- The shared tail of the class-request cases of `SubmitTransfer(CtrlMessage)`:
a negative handler result jumps to `fail`, which replies `IPC_STALL`;
otherwise the handler result is the reply. The function then returns
`IPC_SUCCESS`. -/
def classReply (K : IPCReturn) (cmd : CtrlMessage) (r : HandlerResult) : CtrlResult :=
  if r.ret < 0 then
    { ret := K.IPC_SUCCESS, dev := r.dev, memory := some r.memory
      replies := [(cmd.ios_request, K.IPC_STALL)] }
  else
    { ret := K.IPC_SUCCESS, dev := r.dev, memory := some r.memory
      replies := [(cmd.ios_request, r.ret)] }

/-- The end of the SET_INTERFACE case: `SetAltSetting(static_cast<u8>(cmd->value))`,
a reply with `cmd->length` when it returned 0, and `return ret`. -/
def setInterfaceTail (self : LogitechMic) (cmd : CtrlMessage) (memory : Memory) : CtrlResult :=
  let a := self.SetAltSetting (cmd.value % 256)
  { ret := a.1, dev := a.2, memory := some memory
    replies := if a.1 = 0 then [(cmd.ios_request, (cmd.length : Int))] else [] }

/-- `SubmitTransfer(std::unique_ptr<CtrlMessage> cmd)`. -/
def SubmitTransfer_Ctrl (K : IPCReturn) (self : LogitechMic) (cmd : CtrlMessage)
    (memory : Memory) : CtrlResult :=
  let opcode := (cmd.request_type <<< 8) ||| cmd.request
  if opcode = USBHDR DIR_DEVICE2HOST TYPE_STANDARD REC_DEVICE REQUEST_GET_DESCRIPTOR then
    { ret := K.IPC_SUCCESS, dev := self
      memory := cmd.FillBuffer memory m_full_descriptor (min cmd.length m_full_descriptor.length)
      replies := [(cmd.ios_request, K.IPC_SUCCESS)] }
  else if opcode = USBHDR DIR_HOST2DEVICE TYPE_STANDARD REC_INTERFACE REQUEST_SET_INTERFACE then
    if cmd.index % 256 ≠ self.m_active_interface then
      let c := self.ChangeInterface (cmd.index % 256)
      if c.1 < 0 then
        { ret := c.1, dev := c.2, memory := some memory, replies := [] }
      else
        setInterfaceTail c.2 cmd memory
    else
      setInterfaceTail self cmd memory
  else if opcode = USBHDR DIR_DEVICE2HOST TYPE_CLASS REC_INTERFACE REQUEST_GET_CUR
      ∨ opcode = USBHDR DIR_DEVICE2HOST TYPE_CLASS REC_INTERFACE REQUEST_GET_MIN
      ∨ opcode = USBHDR DIR_DEVICE2HOST TYPE_CLASS REC_INTERFACE REQUEST_GET_MAX
      ∨ opcode = USBHDR DIR_DEVICE2HOST TYPE_CLASS REC_INTERFACE REQUEST_GET_RES then
    classReply K cmd (GetAudioControl K self cmd memory)
  else if opcode = USBHDR DIR_DEVICE2HOST TYPE_CLASS REC_INTERFACE REQUEST_SET_CUR
      ∨ opcode = USBHDR DIR_DEVICE2HOST TYPE_CLASS REC_INTERFACE REQUEST_SET_MIN
      ∨ opcode = USBHDR DIR_DEVICE2HOST TYPE_CLASS REC_INTERFACE REQUEST_SET_MAX
      ∨ opcode = USBHDR DIR_DEVICE2HOST TYPE_CLASS REC_INTERFACE REQUEST_SET_RES then
    classReply K cmd (SetAudioControl K self cmd memory)
  else if opcode = USBHDR DIR_HOST2DEVICE TYPE_CLASS REC_ENDPOINT REQUEST_GET_CUR
      ∨ opcode = USBHDR DIR_HOST2DEVICE TYPE_CLASS REC_ENDPOINT REQUEST_GET_MIN
      ∨ opcode = USBHDR DIR_HOST2DEVICE TYPE_CLASS REC_ENDPOINT REQUEST_GET_MAX
      ∨ opcode = USBHDR DIR_HOST2DEVICE TYPE_CLASS REC_ENDPOINT REQUEST_GET_RES
      ∨ opcode = USBHDR DIR_HOST2DEVICE TYPE_CLASS REC_ENDPOINT REQUEST_SET_CUR
      ∨ opcode = USBHDR DIR_HOST2DEVICE TYPE_CLASS REC_ENDPOINT REQUEST_SET_MIN
      ∨ opcode = USBHDR DIR_HOST2DEVICE TYPE_CLASS REC_ENDPOINT REQUEST_SET_MAX
      ∨ opcode = USBHDR DIR_HOST2DEVICE TYPE_CLASS REC_ENDPOINT REQUEST_SET_RES then
    classReply K cmd (EndpointAudioControl K self cmd memory)
  else if opcode = USBHDR DIR_HOST2DEVICE TYPE_CLASS REC_INTERFACE REQUEST_SET_CUR
      ∨ opcode = USBHDR DIR_HOST2DEVICE TYPE_CLASS REC_INTERFACE REQUEST_SET_MIN
      ∨ opcode = USBHDR DIR_HOST2DEVICE TYPE_CLASS REC_INTERFACE REQUEST_SET_MAX
      ∨ opcode = USBHDR DIR_HOST2DEVICE TYPE_CLASS REC_INTERFACE REQUEST_SET_RES then
    classReply K cmd (SetAudioControl K self cmd memory)
  else
    { ret := K.IPC_SUCCESS, dev := self, memory := some memory
      replies := [(cmd.ios_request, K.IPC_STALL)] }

/-- `SubmitTransfer(std::unique_ptr<BulkMessage> cmd)`: replies `IPC_SUCCESS`. -/
def SubmitTransfer_Bulk (K : IPCReturn) (self : LogitechMic) (ios_request : Nat)
    (memory : Memory) : CtrlResult :=
  { ret := K.IPC_SUCCESS, dev := self, memory := some memory
    replies := [(ios_request, K.IPC_SUCCESS)] }

/-- `SubmitTransfer(std::unique_ptr<IntrMessage> cmd)`: replies `IPC_SUCCESS`. -/
def SubmitTransfer_Intr (K : IPCReturn) (self : LogitechMic) (ios_request : Nat)
    (memory : Memory) : CtrlResult :=
  { ret := K.IPC_SUCCESS, dev := self, memory := some memory
    replies := [(ios_request, K.IPC_SUCCESS)] }

/-- Result of an isochronous submission that runs to its `return`: the
returned `int`, the memory afterwards, the calls `SetPacketReturnValue(i, value)`
and the calls `ScheduleTransferCompletion(length, latency)`, in order. -/
structure IsoResult where
  ret : Int
  memory : Memory
  packet_returns : List (Nat × Nat)
  completions : List (Nat × Nat)

/-- One iteration of the packet loop of `SubmitTransfer(IsoMessage)` on the
pair (remaining `size`, calls so far):
`SetPacketReturnValue(i, std::min(size, packet_sizes[i]))` and
`size = (size > packet_sizes[i]) ? (size - packet_sizes[i]) : 0`.
The message is built with one declared size per packet. -/
def packetStep (cmd : IsoMessage) (st : Nat × List (Nat × Nat)) (i : Nat) :
    Nat × List (Nat × Nat) :=
  let packet_size := cmd.packet_sizes.getD i 0
  (if st.1 > packet_size then st.1 - packet_size else 0, st.2 ++ [(i, min st.1 packet_size)])

/-- `SubmitTransfer(std::unique_ptr<IsoMessage> cmd)`. The result is `none`
when the call has undefined behaviour: `memcpy(packets, dummyData().data(),
cmd->length)` comes before the packet loop and before
`ScheduleTransferCompletion`, so once it reads past the 800-byte array nothing
that follows it is defined: no return value, no packet return value, no
completion. -/
def SubmitTransfer_Iso (K : IPCReturn) (_self : LogitechMic) (cmd : IsoMessage)
    (memory : Memory) : Option IsoResult :=
  if memory.range_ok cmd.data_address cmd.length = false then
    some { ret := K.IPC_EINVAL, memory := memory, packet_returns := [], completions := [] }
  else if cmd.endpoint = ENDPOINT_AUDIO_IN then
    (memory.CopyToEmu cmd.data_address dummyData cmd.length).bind fun filled =>
      let size := 0
      let loop := (List.range cmd.num_packets).foldl (packetStep cmd) (size, [])
      (cmd.FillBuffer filled (filled.range cmd.data_address cmd.length) cmd.length).map fun m =>
        { ret := K.IPC_SUCCESS, memory := m, packet_returns := loop.2
          completions := [(cmd.length, 100)] }
  else
    (cmd.FillBuffer memory (memory.range cmd.data_address cmd.length) cmd.length).map fun m =>
      { ret := K.IPC_SUCCESS, memory := m, packet_returns := []
        completions := [(cmd.length, 100)] }

/-! ## The routing table, as the lists of case labels of the source -/

/-- The top-level routing key `cmd->request_type << 8 | cmd->request`. -/
abbrev opcode (cmd : CtrlMessage) : Nat := (cmd.request_type <<< 8) ||| cmd.request

/-- The class routing key `USBGETAID(cs, cmd->request, cmd->index)`. -/
abbrev aid (cmd : CtrlMessage) : Nat := USBGETAID (selector cmd) cmd.request cmd.index

/-- The two standard-request case labels of `SubmitTransfer(CtrlMessage)`. -/
def standardOpcodes : List Nat :=
  [ USBHDR DIR_DEVICE2HOST TYPE_STANDARD REC_DEVICE REQUEST_GET_DESCRIPTOR,
    USBHDR DIR_HOST2DEVICE TYPE_STANDARD REC_INTERFACE REQUEST_SET_INTERFACE ]

/-- The case labels of `SubmitTransfer(CtrlMessage)` routed to `GetAudioControl`. -/
def getOpcodes : List Nat :=
  [ USBHDR DIR_DEVICE2HOST TYPE_CLASS REC_INTERFACE REQUEST_GET_CUR,
    USBHDR DIR_DEVICE2HOST TYPE_CLASS REC_INTERFACE REQUEST_GET_MIN,
    USBHDR DIR_DEVICE2HOST TYPE_CLASS REC_INTERFACE REQUEST_GET_MAX,
    USBHDR DIR_DEVICE2HOST TYPE_CLASS REC_INTERFACE REQUEST_GET_RES ]

/-- The case labels of `SubmitTransfer(CtrlMessage)` routed to `SetAudioControl`. -/
def setOpcodes : List Nat :=
  [ USBHDR DIR_DEVICE2HOST TYPE_CLASS REC_INTERFACE REQUEST_SET_CUR,
    USBHDR DIR_DEVICE2HOST TYPE_CLASS REC_INTERFACE REQUEST_SET_MIN,
    USBHDR DIR_DEVICE2HOST TYPE_CLASS REC_INTERFACE REQUEST_SET_MAX,
    USBHDR DIR_DEVICE2HOST TYPE_CLASS REC_INTERFACE REQUEST_SET_RES,
    USBHDR DIR_HOST2DEVICE TYPE_CLASS REC_INTERFACE REQUEST_SET_CUR,
    USBHDR DIR_HOST2DEVICE TYPE_CLASS REC_INTERFACE REQUEST_SET_MIN,
    USBHDR DIR_HOST2DEVICE TYPE_CLASS REC_INTERFACE REQUEST_SET_MAX,
    USBHDR DIR_HOST2DEVICE TYPE_CLASS REC_INTERFACE REQUEST_SET_RES ]

/-- The case labels of `SubmitTransfer(CtrlMessage)` routed to `EndpointAudioControl`. -/
def endpointOpcodes : List Nat :=
  [ USBHDR DIR_HOST2DEVICE TYPE_CLASS REC_ENDPOINT REQUEST_GET_CUR,
    USBHDR DIR_HOST2DEVICE TYPE_CLASS REC_ENDPOINT REQUEST_GET_MIN,
    USBHDR DIR_HOST2DEVICE TYPE_CLASS REC_ENDPOINT REQUEST_GET_MAX,
    USBHDR DIR_HOST2DEVICE TYPE_CLASS REC_ENDPOINT REQUEST_GET_RES,
    USBHDR DIR_HOST2DEVICE TYPE_CLASS REC_ENDPOINT REQUEST_SET_CUR,
    USBHDR DIR_HOST2DEVICE TYPE_CLASS REC_ENDPOINT REQUEST_SET_MIN,
    USBHDR DIR_HOST2DEVICE TYPE_CLASS REC_ENDPOINT REQUEST_SET_MAX,
    USBHDR DIR_HOST2DEVICE TYPE_CLASS REC_ENDPOINT REQUEST_SET_RES ]

/-- The case labels of the `switch` of `GetAudioControl`. -/
def getCases : List Nat :=
  [ USBGETAID 0 REQUEST_GET_CUR 0x0300, USBGETAID 2 REQUEST_GET_CUR 0x0300,
    USBGETAID 2 REQUEST_GET_MIN 0x0300, USBGETAID 2 REQUEST_GET_MAX 0x0300,
    USBGETAID 2 REQUEST_GET_RES 0x0300 ]

/-- The case labels of the `switch` of `SetAudioControl`. -/
def setCases : List Nat :=
  [ USBGETAID 1 REQUEST_SET_CUR 0x0300, USBGETAID 2 REQUEST_SET_CUR 0x0300,
    USBGETAID 7 REQUEST_SET_CUR 0x0300 ]

/-- The case labels of the `switch` of `EndpointAudioControl`. -/
def endpointCases : List Nat :=
  [ USBGETAID 1 REQUEST_SET_CUR 0x0081, USBGETAID 1 REQUEST_GET_CUR 0x0081 ]

/-- A control transfer is absent from the routing table: its top-level key
matches no case label, or it is a class request whose secondary key matches no
case label of the handler it is routed to. -/
def Unrouted (cmd : CtrlMessage) : Prop :=
  (opcode cmd ∉ standardOpcodes ∧ opcode cmd ∉ getOpcodes ∧ opcode cmd ∉ setOpcodes ∧
      opcode cmd ∉ endpointOpcodes) ∨
    (opcode cmd ∈ getOpcodes ∧ aid cmd ∉ getCases) ∨
    (opcode cmd ∈ setOpcodes ∧ aid cmd ∉ setCases) ∨
    (opcode cmd ∈ endpointOpcodes ∧ aid cmd ∉ endpointCases)

instance (cmd : CtrlMessage) : Decidable (Unrouted cmd) := by
  unfold Unrouted; infer_instance

/-- A memory used to evaluate the model on concrete inputs: all bytes zero,
big-endian 16-bit accessors, every range resolvable. -/
def zeroMemory : Memory :=
  { bytes := fun _ => 0, big_endian := true, range_ok := fun _ _ => true }

/-- The stored volume as the specification words it:
`clamp(round((d − 0x8000) * 255 / 0x8800), 0, 255)` with `d − 0x8000` the integer
difference; rounding `n / 0x8800` to nearest is `⌊(n + 0x4400) / 0x8800⌋`. -/
def specVolumeFromDevice (d : Nat) : Int :=
  max 0 (min 255 ((((d : Int) - 0x8000) * 255 + 0x4400) / 0x8800))

/-! ## Concrete inputs and event sequences -/

/-- A memory whose byte at address `0x100` is 1: the payload of a mute SET_CUR. -/
def muteMemory : Memory :=
  { bytes := fun a => if a = 0x100 then 1 else 0, big_endian := true, range_ok := fun _ _ => true }

/-- A memory holding 48000 (`0x00bb80`) as three little-endian bytes at `0x100`. -/
def rateMemory : Memory :=
  { bytes := fun a => if a = 0x100 then 0x80 else if a = 0x101 then 0xbb else 0
    big_endian := true, range_ok := fun _ _ => true }

/-- The operations the host kernel can invoke on the device. -/
inductive Event where
  | Attach
  | AttachAndChangeInterface (interface : Nat)
  | ChangeInterface (interface : Nat)
  | SetAltSetting (alt_setting : Nat)
  | CancelTransfer (endpoint : Nat)
  | SubmitTransfer (cmd : CtrlMessage)
deriving DecidableEq, Repr

/-- The effect of one operation on the device and the memory. -/
def step (K : IPCReturn) (st : LogitechMic × Memory) : Event → LogitechMic × Memory
  | .Attach => (st.1.Attach.2, st.2)
  | .AttachAndChangeInterface interface => ((st.1.AttachAndChangeInterface interface).2, st.2)
  | .ChangeInterface interface => ((st.1.ChangeInterface interface).2, st.2)
  | .SetAltSetting alt_setting => ((st.1.SetAltSetting alt_setting).2, st.2)
  | .CancelTransfer endpoint => ((CancelTransfer K st.1 endpoint).2, st.2)
  | .SubmitTransfer cmd =>
    ((SubmitTransfer_Ctrl K st.1 cmd st.2).dev, (SubmitTransfer_Ctrl K st.1 cmd st.2).memory.getD st.2)

/-- The state reached from the constructed device by a sequence of operations. -/
def run (K : IPCReturn) (memory : Memory) (events : List Event) : LogitechMic × Memory :=
  events.foldl (step K) (init, memory)

/-! ## Definitions used to state the properties of the feeder and of the descriptor blob -/

/-- The placeholder waveform as the specification words it: byte `i` is `0xFF`
if `(i / 100) mod 2 == 1` and `0x00` otherwise. -/
def placeholder (i : Nat) : Nat := if (i / 100) % 2 = 1 then 0xff else 0x00

/-- Walking a descriptor blob: from `offset`, each descriptor starts with its
length byte `bLength`, and the next descriptor starts `bLength` bytes further.
The walk records the offsets of the descriptors with a non-zero `bLength` and
stops at the first offset that holds 0 or lies outside the blob; the result is
the list of visited offsets and the offset where the walk stopped. `fuel`
bounds the number of steps. -/
def descriptorChain (blob : List Nat) : Nat → Nat → List Nat × Nat
  | 0, offset => ([], offset)
  | fuel + 1, offset =>
    match blob[offset]? with
    | none => ([], offset)
    | some 0 => ([], offset)
    | some bLength =>
      ((offset :: (descriptorChain blob fuel (offset + bLength)).1),
        (descriptorChain blob fuel (offset + bLength)).2)

/-- A 16-bit little-endian field of a descriptor blob. -/
def le16 (blob : List Nat) (offset : Nat) : Nat :=
  blob.getD offset 0 ||| ((blob.getD (offset + 1) 0) <<< 8)

/-- A 24-bit little-endian field of a descriptor blob, decoded as the source
decodes a sample rate: `b0 | (b1 << 8) | (b2 << 16)`. -/
def le24 (blob : List Nat) (offset : Nat) : Nat :=
  blob.getD offset 0 ||| ((blob.getD (offset + 1) 0) <<< 8) |||
    ((blob.getD (offset + 2) 0) <<< 16)

/-- The `k`-th `tSamFreq` entry of the Audio Type I Format descriptor that
starts at `offset`: the entries follow the 8-byte header, 3 bytes each. -/
def tSamFreq (blob : List Nat) (offset k : Nat) : Nat :=
  le24 blob (offset + 8 + 3 * k)

/-- The fixed value reported by the volume range requests. -/
def volumeRangeConstant (request : Nat) : Nat :=
  if request = REQUEST_GET_MIN then 0x8001
  else if request = REQUEST_GET_MAX then 0x0800
  else 0x0088

/-- The unguarded store `a[i] = static_cast<u8>(vol)`. -/
def storeAlways (a : Array2) (i vol : Nat) : Array2 := a.set i (vol % 256)

/-- A 16-bit value read as a signed (two's complement) integer. -/
def toSigned16 (w : Nat) : Int :=
  if w % 65536 < 0x8000 then (w % 65536 : Nat) else ((w % 65536 : Nat) : Int) - 65536

/-- The nine bytes of a configuration descriptor, `wTotalLength` little-endian. -/
def ConfigDescriptor.bytes (d : ConfigDescriptor) : List Nat :=
  [d.bLength, d.bDescriptorType, d.wTotalLength % 256, d.wTotalLength / 256 % 256,
    d.bNumInterfaces, d.bConfigurationValue, d.iConfiguration, d.bmAttributes, d.MaxPower]

/-- The nine bytes of an interface descriptor. -/
def InterfaceDescriptor.bytes (d : InterfaceDescriptor) : List Nat :=
  [d.bLength, d.bDescriptorType, d.bInterfaceNumber, d.bAlternateSetting, d.bNumEndpoints,
    d.bInterfaceClass, d.bInterfaceSubClass, d.bInterfaceProtocol, d.iInterface]

/-- The first seven bytes of a standard endpoint descriptor, `wMaxPacketSize`
little-endian. -/
def EndpointDescriptor.bytes (d : EndpointDescriptor) : List Nat :=
  [d.bLength, d.bDescriptorType, d.bEndpointAddress, d.bmAttributes, d.wMaxPacketSize % 256,
    d.wMaxPacketSize / 256 % 256, d.bInterval]

/-- The offsets of the descriptors of a blob whose `bDescriptorType` is `type`. -/
def descriptorsOfType (blob : List Nat) (type : Nat) : List Nat :=
  (descriptorChain blob blob.length 0).1.filter fun o => decide (blob.getD (o + 1) 0 = type)

/-- The `size` bytes of a blob that start at `offset`. -/
def slice (blob : List Nat) (offset size : Nat) : List Nat := (blob.drop offset).take size

/-- The requests that `SetAudioControl` accepts. -/
def SetAccepted (cmd : CtrlMessage) : Prop :=
  cmd.request = REQUEST_SET_CUR ∧ cmd.index = 0x0300 ∧
    (selector cmd = 1 ∨ (selector cmd = 2 ∧ (channel cmd < 2 ∨ channel cmd = 0xff)) ∨
      selector cmd = 7)

instance (cmd : CtrlMessage) : Decidable (SetAccepted cmd) := by
  unfold SetAccepted; infer_instance

/-! ## Routing lemmas -/

theorem standardOpcodes_eq : standardOpcodes = [0x8006, 0x010b] := by decide
theorem getOpcodes_eq : getOpcodes = [0xa181, 0xa182, 0xa183, 0xa184] := by decide
theorem setOpcodes_eq :
    setOpcodes = [0xa101, 0xa102, 0xa103, 0xa104, 0x2101, 0x2102, 0x2103, 0x2104] := by decide
theorem endpointOpcodes_eq :
    endpointOpcodes = [0x2281, 0x2282, 0x2283, 0x2284, 0x2201, 0x2202, 0x2203, 0x2204] := by
  decide
theorem getCases_eq :
    getCases = [0x00810300, 0x02810300, 0x02820300, 0x02830300, 0x02840300] := by decide
theorem setCases_eq : setCases = [0x01010300, 0x02010300, 0x07010300] := by decide
theorem endpointCases_eq : endpointCases = [0x01010081, 0x01810081] := by decide

theorem m_full_descriptor_length : m_full_descriptor.length = 178 := by rfl

theorem SubmitTransfer_Ctrl_eq (K : IPCReturn) (self : LogitechMic) (cmd : CtrlMessage)
    (memory : Memory) :
    SubmitTransfer_Ctrl K self cmd memory =
      if opcode cmd = 0x8006 then
        { ret := K.IPC_SUCCESS, dev := self
          memory := cmd.FillBuffer memory m_full_descriptor (min cmd.length 178)
          replies := [(cmd.ios_request, K.IPC_SUCCESS)] }
      else if opcode cmd = 0x010b then
        { ret := 0, dev := { self with m_active_interface := cmd.index % 256 }
          memory := some memory, replies := [(cmd.ios_request, (cmd.length : Int))] }
      else if opcode cmd ∈ getOpcodes then
        classReply K cmd (GetAudioControl K self cmd memory)
      else if opcode cmd ∈ setOpcodes then
        classReply K cmd (SetAudioControl K self cmd memory)
      else if opcode cmd ∈ endpointOpcodes then
        classReply K cmd (EndpointAudioControl K self cmd memory)
      else
        { ret := K.IPC_SUCCESS, dev := self, memory := some memory
          replies := [(cmd.ios_request, K.IPC_STALL)] } := by
  have e1 : USBHDR DIR_DEVICE2HOST TYPE_STANDARD REC_DEVICE REQUEST_GET_DESCRIPTOR = 0x8006 := by
    decide
  have e2 : USBHDR DIR_HOST2DEVICE TYPE_STANDARD REC_INTERFACE REQUEST_SET_INTERFACE = 0x010b := by
    decide
  have hg := getOpcodes_eq
  have hs := setOpcodes_eq
  have he := endpointOpcodes_eq
  simp only [getOpcodes, setOpcodes, endpointOpcodes, List.cons.injEq, and_true] at hg hs he
  obtain ⟨g1, g2, g3, g4⟩ := hg
  obtain ⟨s1, s2, s3, s4, s5, s6, s7, s8⟩ := hs
  obtain ⟨p1, p2, p3, p4, p5, p6, p7, p8⟩ := he
  unfold SubmitTransfer_Ctrl
  simp only [e1, e2, g1, g2, g3, g4, s1, s2, s3, s4, s5, s6, s7, s8, p1, p2, p3, p4, p5, p6, p7,
    p8, getOpcodes_eq, setOpcodes_eq, endpointOpcodes_eq, opcode, List.mem_cons,
    List.mem_singleton, List.not_mem_nil, or_false, setInterfaceTail, ChangeInterface,
    SetAltSetting, m_full_descriptor_length]
  generalize cmd.request_type <<< 8 ||| cmd.request = x
  by_cases h1 : x = 0x8006
  · simp [h1]
  by_cases h2 : x = 0x010b
  · simp only [h1, h2, if_false, if_true]
    by_cases h3 : cmd.index % 256 = self.m_active_interface
    · simp [h3]
    · simp [h3]
  simp only [h1, h2, if_false]
  split_ifs <;> first | rfl | (exfalso; omega)

theorem classReply_replies (K : IPCReturn) (cmd : CtrlMessage) (r : HandlerResult) :
    ∃ v, (classReply K cmd r).replies = [(cmd.ios_request, v)] := by
  unfold classReply
  split_ifs
  · exact ⟨_, rfl⟩
  · exact ⟨_, rfl⟩

theorem classReply_stall (K : IPCReturn) (cmd : CtrlMessage) (self : LogitechMic)
    (memory : Memory) :
    classReply K cmd { ret := K.IPC_STALL, dev := self, memory := memory } =
      { ret := K.IPC_SUCCESS, dev := self, memory := some memory
        replies := [(cmd.ios_request, K.IPC_STALL)] } := by
  unfold classReply
  split_ifs <;> rfl

theorem GetAudioControl_unhandled (K : IPCReturn) (self : LogitechMic) (cmd : CtrlMessage)
    (memory : Memory) (h : aid cmd ∉ getCases) :
    GetAudioControl K self cmd memory = { ret := K.IPC_STALL, dev := self, memory := memory } := by
  simp only [getCases, List.mem_cons, List.mem_singleton, List.not_mem_nil, or_false,
    not_or] at h
  unfold GetAudioControl
  simp [h]

theorem SetAudioControl_unhandled (K : IPCReturn) (self : LogitechMic) (cmd : CtrlMessage)
    (memory : Memory) (h : aid cmd ∉ setCases) :
    SetAudioControl K self cmd memory = { ret := K.IPC_STALL, dev := self, memory := memory } := by
  simp only [setCases, List.mem_cons, List.mem_singleton, List.not_mem_nil, or_false,
    not_or] at h
  unfold SetAudioControl
  simp [h]

theorem EndpointAudioControl_unhandled (K : IPCReturn) (self : LogitechMic) (cmd : CtrlMessage)
    (memory : Memory) (h : aid cmd ∉ endpointCases) :
    EndpointAudioControl K self cmd memory =
      { ret := K.IPC_STALL, dev := self, memory := memory } := by
  simp only [endpointCases, List.mem_cons, List.mem_singleton, List.not_mem_nil, or_false,
    not_or] at h
  unfold EndpointAudioControl
  simp [h]

/-! ## Control transfers: replies and routing -/

/-- C1: for every control transfer, every device state and every memory,
`SubmitTransfer(CtrlMessage)` enqueues exactly one reply, and that reply is
addressed to the request of the transfer. -/
theorem C1_ctrl_exactly_one_reply (K : IPCReturn) (self : LogitechMic) (cmd : CtrlMessage)
    (memory : Memory) :
    (SubmitTransfer_Ctrl K self cmd memory).replies.length = 1 ∧
      ∃ v, (SubmitTransfer_Ctrl K self cmd memory).replies = [(cmd.ios_request, v)] := by
  have key : ∃ v, (SubmitTransfer_Ctrl K self cmd memory).replies = [(cmd.ios_request, v)] := by
    rw [SubmitTransfer_Ctrl_eq]
    split_ifs
    · exact ⟨_, rfl⟩
    · exact ⟨_, rfl⟩
    · exact classReply_replies K cmd _
    · exact classReply_replies K cmd _
    · exact classReply_replies K cmd _
    · exact ⟨_, rfl⟩
  obtain ⟨v, hv⟩ := key
  exact ⟨by rw [hv]; rfl, v, hv⟩

/-- C2: a control transfer that is absent from the routing table is answered
with the single reply `IPC_STALL`, and the sampler state, the active interface
index, the rest of the device state and the memory are left unchanged. -/
theorem C2_unrouted_stall (K : IPCReturn) (self : LogitechMic) (cmd : CtrlMessage)
    (memory : Memory) (h : Unrouted cmd) :
    (SubmitTransfer_Ctrl K self cmd memory).replies = [(cmd.ios_request, K.IPC_STALL)] ∧
      (SubmitTransfer_Ctrl K self cmd memory).dev.m_sampler = self.m_sampler ∧
      (SubmitTransfer_Ctrl K self cmd memory).dev.m_active_interface = self.m_active_interface ∧
      (SubmitTransfer_Ctrl K self cmd memory).dev = self ∧
      (SubmitTransfer_Ctrl K self cmd memory).memory = some memory := by
  have key : SubmitTransfer_Ctrl K self cmd memory =
      { ret := K.IPC_SUCCESS, dev := self, memory := some memory
        replies := [(cmd.ios_request, K.IPC_STALL)] } := by
    rw [SubmitTransfer_Ctrl_eq]
    have hg := getOpcodes_eq
    have hs := setOpcodes_eq
    have he := endpointOpcodes_eq
    have hst := standardOpcodes_eq
    rcases h with ⟨h1, h2, h3, h4⟩ | ⟨h1, h2⟩ | ⟨h1, h2⟩ | ⟨h1, h2⟩
    · rw [hst] at h1
      simp only [List.mem_cons, List.mem_singleton, List.not_mem_nil, or_false, not_or] at h1
      simp [h1.1, h1.2, h2, h3, h4]
    · rw [GetAudioControl_unhandled K self cmd memory h2, classReply_stall]
      have h1c := h1
      rw [hg] at h1c
      simp only [List.mem_cons, List.mem_singleton, List.not_mem_nil, or_false] at h1c
      have n1 : opcode cmd ≠ 0x8006 := by omega
      have n2 : opcode cmd ≠ 0x010b := by omega
      simp [n1, n2, h1]
    · rw [SetAudioControl_unhandled K self cmd memory h2, classReply_stall]
      have h1c := h1
      rw [hs] at h1c
      simp only [List.mem_cons, List.mem_singleton, List.not_mem_nil, or_false] at h1c
      have n1 : opcode cmd ≠ 0x8006 := by omega
      have n2 : opcode cmd ≠ 0x010b := by omega
      have n3 : opcode cmd ∉ getOpcodes := by
        rw [hg]
        simp only [List.mem_cons, List.mem_singleton, List.not_mem_nil, or_false]
        omega
      simp [n1, n2, n3, h1]
    · rw [EndpointAudioControl_unhandled K self cmd memory h2, classReply_stall]
      have h1c := h1
      rw [he] at h1c
      simp only [List.mem_cons, List.mem_singleton, List.not_mem_nil, or_false] at h1c
      have n1 : opcode cmd ≠ 0x8006 := by omega
      have n2 : opcode cmd ≠ 0x010b := by omega
      have n3 : opcode cmd ∉ getOpcodes := by
        rw [hg]
        simp only [List.mem_cons, List.mem_singleton, List.not_mem_nil, or_false]
        omega
      have n4 : opcode cmd ∉ setOpcodes := by
        rw [hs]
        simp only [List.mem_cons, List.mem_singleton, List.not_mem_nil, or_false]
        omega
      simp [n1, n2, n3, n4, h1]
  rw [key]
  exact ⟨rfl, rfl, rfl, rfl, rfl⟩

/-- A vendor request (`bmRequestType = 0xc0`, `bRequest = 1`) is absent from the
routing table and is answered with a stall. -/
theorem C2_unrouted_stall_witness :
    Unrouted ⟨7, 0x100, 0xc0, 1, 0, 0, 0⟩ ∧
      (SubmitTransfer_Ctrl ipcReturn init ⟨7, 0x100, 0xc0, 1, 0, 0, 0⟩ zeroMemory).replies =
        [(7, ipcReturn.IPC_STALL)] :=
  ⟨by decide, (C2_unrouted_stall ipcReturn init ⟨7, 0x100, 0xc0, 1, 0, 0, 0⟩ zeroMemory
    (by decide)).1⟩

theorem CopyToEmu_spec (m : Memory) (address : Nat) (src : List Nat) (size : Nat)
    (h : size ≤ src.length) :
    ∃ m', m.CopyToEmu address src size = some m' ∧
      m'.range address size = src.take size ∧
      (∀ a, ¬(address ≤ a ∧ a < address + size) → m'.bytes a = m.bytes a) := by
  refine ⟨_, by rw [Memory.CopyToEmu, if_pos h], ?_, ?_⟩
  · apply List.ext_getElem
    · simp [Memory.range, h]
    · intro i h1 h2
      simp only [Memory.range, List.length_map, List.length_range] at h1
      simp only [Memory.range, List.getElem_map, List.getElem_range, List.getElem_take]
      have hi : i < src.length := by omega
      simp [h1, List.getElem?_eq_getElem hi]
  · intro a ha
    simp only [ha, if_false]

/-! ## GET_DESCRIPTOR -/

/-- C3: a standard GET_DESCRIPTOR control transfer of requested length `L`
copies exactly the first `min L 178` bytes of the 178-byte merged descriptor
blob to the payload, never reads past the end of the blob, changes no other
byte, and replies with success. -/
theorem C3_get_descriptor (K : IPCReturn) (self : LogitechMic) (cmd : CtrlMessage)
    (memory : Memory)
    (h : opcode cmd = USBHDR DIR_DEVICE2HOST TYPE_STANDARD REC_DEVICE REQUEST_GET_DESCRIPTOR) :
    m_full_descriptor.length = 178 ∧
      (SubmitTransfer_Ctrl K self cmd memory).replies = [(cmd.ios_request, K.IPC_SUCCESS)] ∧
      ∃ m', (SubmitTransfer_Ctrl K self cmd memory).memory = some m' ∧
        m'.range cmd.data_address (min cmd.length 178) =
          m_full_descriptor.take (min cmd.length 178) ∧
        (∀ a, ¬(cmd.data_address ≤ a ∧ a < cmd.data_address + min cmd.length 178) →
          m'.bytes a = memory.bytes a) ∧
        (cmd.length = 9 → m'.range cmd.data_address 9 = m_full_descriptor.take 9) ∧
        (cmd.length = 178 → m'.range cmd.data_address 178 = m_full_descriptor) ∧
        (cmd.length = 200 → m'.range cmd.data_address 178 = m_full_descriptor ∧
          ∀ a, cmd.data_address + 178 ≤ a → m'.bytes a = memory.bytes a) := by
  have e1 : USBHDR DIR_DEVICE2HOST TYPE_STANDARD REC_DEVICE REQUEST_GET_DESCRIPTOR = 0x8006 := by
    decide
  rw [e1] at h
  have hlen := m_full_descriptor_length
  have hle : min cmd.length 178 ≤ m_full_descriptor.length := by omega
  obtain ⟨m', hm, hr, hf⟩ := CopyToEmu_spec memory cmd.data_address m_full_descriptor _ hle
  refine ⟨hlen, ?_, m', ?_, hr, hf, ?_, ?_, ?_⟩
  · rw [SubmitTransfer_Ctrl_eq]; simp [h]
  · rw [SubmitTransfer_Ctrl_eq]; simp only [h, if_true, CtrlMessage.FillBuffer]; exact hm
  · intro h9; rw [h9] at hr; exact hr
  · intro h178; rw [h178] at hr
    rw [show min 178 178 = 178 from rfl] at hr
    rw [hr, ← hlen, List.take_length]
  · intro h200; rw [h200] at hr hf
    rw [show min 200 178 = 178 from rfl] at hr hf
    refine ⟨by rw [hr, ← hlen, List.take_length], fun a ha => hf a (by omega)⟩

/-- A GET_DESCRIPTOR request of length 9 (`bmRequestType = 0x80`, `bRequest = 6`)
on the initial device. -/
theorem C3_get_descriptor_witness :
    opcode ⟨7, 0x100, 0x80, 6, 0x0200, 0, 9⟩ =
        USBHDR DIR_DEVICE2HOST TYPE_STANDARD REC_DEVICE REQUEST_GET_DESCRIPTOR ∧
      (SubmitTransfer_Ctrl ipcReturn init ⟨7, 0x100, 0x80, 6, 0x0200, 0, 9⟩ zeroMemory).replies =
        [(7, ipcReturn.IPC_SUCCESS)] :=
  ⟨by decide, (C3_get_descriptor ipcReturn init ⟨7, 0x100, 0x80, 6, 0x0200, 0, 9⟩ zeroMemory
    (by decide)).2.1⟩

/-! ## Volume and sample-rate arithmetic -/

set_option maxRecDepth 100000 in
theorem volume_round_trip_exact : ∀ v, v < 256 → volumeFromDevice (volumeToDevice v) = v := by
  decide

/-- C4: volume round trip. For every internal volume `v` in `[0, 255]`, the
value stored by the SET_CUR arithmetic for the device value that the GET_CUR
arithmetic computes from `v` differs from `v` by at most 1. -/
theorem C4_volume_round_trip (v : Nat) (hv : v ≤ 255) :
    volumeFromDevice (volumeToDevice v) ≤ v + 1 ∧ v ≤ volumeFromDevice (volumeToDevice v) + 1 := by
  have h := volume_round_trip_exact v (by omega)
  omega

theorem volumeFromDevice_eq (d : Nat) :
    volumeFromDevice d = min ((((d + 0x8000) % 65536) * 255 + 0x4400) / 0x8800) 255 := by
  have hx : (d % 65536 + 65536 - 0x8000) % 65536 = (d + 0x8000) % 65536 := by omega
  have hlt : (d + 0x8000) % 65536 < 65536 := Nat.mod_lt _ (by norm_num)
  have hq : (((d + 0x8000) % 65536) * 255 + 0x4400) / 0x8800 < 65536 := by omega
  unfold volumeFromDevice
  simp only [hx, Nat.mod_eq_of_lt hq]
  split_ifs <;> omega

theorem sr_decode (b0 b1 b2 : Nat) (h0 : b0 < 256) (h1 : b1 < 256) (_h2 : b2 < 256) :
    (b0 ||| (b1 <<< 8) ||| (b2 <<< 16)) = b0 + 256 * b1 + 65536 * b2 := by
  have e1 : b0 ||| (b1 <<< 8) = 2 ^ 8 * b1 + b0 := by
    rw [Nat.mul_add_lt_is_or (by omega), Nat.shiftLeft_eq, Nat.lor_comm, Nat.mul_comm]
  have e2 : (2 ^ 8 * b1 + b0) ||| (b2 <<< 16) = 2 ^ 16 * b2 + (2 ^ 8 * b1 + b0) := by
    have h := Nat.mul_add_lt_is_or (show 2 ^ 8 * b1 + b0 < 2 ^ 16 by omega) b2
    rw [h, Nat.shiftLeft_eq, Nat.lor_comm, Nat.mul_comm]
  rw [e1, e2]; omega


theorem Read_U16_lt (m : Memory) (address : Nat) : m.Read_U16 address < 65536 := by
  have h0 : m.Read_U8 address < 256 := Nat.mod_lt _ (by norm_num)
  have h1 : m.Read_U8 (u32add address 1) < 256 := Nat.mod_lt _ (by norm_num)
  have e := sr_decode (m.Read_U8 address) (m.Read_U8 (u32add address 1)) 0 h0 h1 (by norm_num)
  have e' := sr_decode (m.Read_U8 (u32add address 1)) (m.Read_U8 address) 0 h1 h0 (by norm_num)
  simp only [Nat.zero_shiftLeft, Nat.or_zero, Nat.mul_zero, Nat.add_zero] at e e'
  unfold Memory.Read_U16
  split_ifs
  · rw [Nat.lor_comm, e']; omega
  · rw [e]; omega

theorem storeIfChanged_get (a : Array2) (i vol : Nat) (hv : vol ≤ 255) :
    storeIfChanged a i vol = a.set i vol := by
  unfold storeIfChanged
  split_ifs with h
  · rw [Nat.mod_eq_of_lt (by omega)]
  · simp only [ne_eq, not_not] at h
    unfold Array2.get at h
    unfold Array2.set
    split_ifs with h0 h1
    · simp only [h0, if_true] at h; cases a; simp_all
    · simp only [h0, h1, if_false, if_true] at h; cases a; simp_all
    · rfl

/-- C5, as stated, fails at `d = 0`: a master-channel VOLUME SET_CUR whose
payload reads as the device value 0 stores 240 in both channels, whereas the
formula with the integer difference `d − 0x8000` gives 0. -/
theorem C5_counterexample_d_zero :
    Memory.Read_U16 zeroMemory 0x100 = 0 ∧
      (SetAudioControl ipcReturn init ⟨7, 0x100, 0x21, 0x01, 0x0200, 0x0300, 2⟩
        zeroMemory).dev.m_sampler.vol = ⟨240, 240⟩ ∧
      specVolumeFromDevice 0 = 0 ∧
      ((SetAudioControl ipcReturn init ⟨7, 0x100, 0x21, 0x01, 0x0200, 0x0300, 2⟩
        zeroMemory).dev.m_sampler.vol.e0 : Int) ≠ specVolumeFromDevice 0 := by
  decide

theorem SetAudioControl_volume (K : IPCReturn) (self : LogitechMic) (cmd : CtrlMessage)
    (memory : Memory) (hs : selector cmd = 2) (hr : cmd.request = REQUEST_SET_CUR)
    (hi : cmd.index = 0x0300) (hc : channel cmd < 2 ∨ channel cmd = 0xff) :
    SetAudioControl K self cmd memory =
      { ret := 0
        dev := { self with m_sampler := { self.m_sampler with
          vol :=
            if (channel cmd = 0xff) then
              (self.m_sampler.vol.set 0 (volumeFromDevice (memory.Read_U16 cmd.data_address))).set
                1 (volumeFromDevice (memory.Read_U16 cmd.data_address))
            else
              self.m_sampler.vol.set (channel cmd)
                (volumeFromDevice (memory.Read_U16 cmd.data_address)) } }
        memory := memory } := by
  have n1 : USBGETAID 2 REQUEST_SET_CUR 0x0300 ≠ USBGETAID 1 REQUEST_SET_CUR 0x0300 := by decide
  have hv := volumeFromDevice_eq (memory.Read_U16 cmd.data_address)
  have hv255 : volumeFromDevice (memory.Read_U16 cmd.data_address) ≤ 255 := by
    rw [hv]; exact Nat.min_le_right _ _
  unfold SetAudioControl
  simp only [hs, hr, hi, n1, hc, if_true, if_false, storeIfChanged_get _ _ _ hv255]

/-- C5, amended: for a VOLUME SET_CUR request (selector 2, `wIndex` 0x0300,
`cn < 2` or `cn = 0xff`) carrying the 16-bit device value `d`, the handler
returns 0 and stores `min(q, 255)`, where `q` is `x * 255 / 0x8800` rounded to
nearest and `x = (d − 0x8000) mod 2^16` is the 16-bit wrapped difference: it
is `d − 0x8000` for `d ≥ 0x8000` and `d + 0x8000` for `d < 0x8000`, where the
stored value is at least 240. With `cn = 0xff` both channels receive the
value, otherwise channel `cn` only. -/
theorem C5_volume_set_cur (K : IPCReturn) (self : LogitechMic) (cmd : CtrlMessage)
    (memory : Memory) (hs : selector cmd = 2) (hr : cmd.request = REQUEST_SET_CUR)
    (hi : cmd.index = 0x0300) (hc : channel cmd < 2 ∨ channel cmd = 0xff) :
    ∃ d x q : Nat,
      d = memory.Read_U16 cmd.data_address ∧ d < 65536 ∧
      x = (d + 0x8000) % 65536 ∧
      (0x8000 ≤ d → x = d - 0x8000) ∧ (d < 0x8000 → x = d + 0x8000) ∧
      q * 0x8800 ≤ x * 255 + 0x4400 ∧ x * 255 + 0x4400 < (q + 1) * 0x8800 ∧
      (d < 0x8000 → 240 ≤ min q 255) ∧
      (SetAudioControl K self cmd memory).ret = 0 ∧
      (channel cmd = 0xff →
        (SetAudioControl K self cmd memory).dev.m_sampler.vol = ⟨min q 255, min q 255⟩) ∧
      (channel cmd = 0 →
        (SetAudioControl K self cmd memory).dev.m_sampler.vol =
          ⟨min q 255, self.m_sampler.vol.e1⟩) ∧
      (channel cmd = 1 →
        (SetAudioControl K self cmd memory).dev.m_sampler.vol =
          ⟨self.m_sampler.vol.e0, min q 255⟩) := by
  have hd := Read_U16_lt memory cmd.data_address
  have hv := volumeFromDevice_eq (memory.Read_U16 cmd.data_address)
  rw [SetAudioControl_volume K self cmd memory hs hr hi hc, hv]
  refine ⟨memory.Read_U16 cmd.data_address, (memory.Read_U16 cmd.data_address + 0x8000) % 65536,
    (((memory.Read_U16 cmd.data_address + 0x8000) % 65536) * 255 + 0x4400) / 0x8800,
    rfl, hd, rfl, by omega, by omega, by omega, by omega, by omega, rfl, ?_, ?_, ?_⟩
  · intro h
    simp [h, Array2.set]
  · intro h
    simp [h, Array2.set]
  · intro h
    simp [h, Array2.set]

/-- A master-channel volume SET_CUR (`wValue = 0x0200`) on the initial device. -/
theorem C5_volume_set_cur_witness :
    selector ⟨7, 0x100, 0x21, 0x01, 0x0200, 0x0300, 2⟩ = 2 ∧
      (⟨7, 0x100, 0x21, 0x01, 0x0200, 0x0300, 2⟩ : CtrlMessage).request = REQUEST_SET_CUR ∧
      (⟨7, 0x100, 0x21, 0x01, 0x0200, 0x0300, 2⟩ : CtrlMessage).index = 0x0300 ∧
      (channel ⟨7, 0x100, 0x21, 0x01, 0x0200, 0x0300, 2⟩ < 2 ∨
        channel ⟨7, 0x100, 0x21, 0x01, 0x0200, 0x0300, 2⟩ = 0xff) ∧
      (SetAudioControl ipcReturn init ⟨7, 0x100, 0x21, 0x01, 0x0200, 0x0300, 2⟩ zeroMemory).ret
        = 0 := by
  obtain ⟨d, x, q, _, _, _, _, _, _, _, _, h, _⟩ :=
    C5_volume_set_cur ipcReturn init ⟨7, 0x100, 0x21, 0x01, 0x0200, 0x0300, 2⟩ zeroMemory
      (by decide) (by decide) (by decide) (by decide)
  exact ⟨by decide, by decide, by decide, by decide, h⟩




theorem and_0xff (w : Nat) : w &&& 0xff = w % 256 := Nat.and_pow_two_sub_one_eq_mod w 8

theorem shr8 (w : Nat) : w >>> 8 = w / 256 := Nat.shiftRight_eq_div_pow w 8

theorem shr16 (w : Nat) : w >>> 16 = w / 65536 := Nat.shiftRight_eq_div_pow w 16

theorem u32add_ne (a k : Nat) (hk : 0 < k) (hk' : k < 2 ^ 32) : u32add a k ≠ a := by
  unfold u32add; omega

theorem u32add_ne_u32add (a j k : Nat) (hjk : j < k) (hk' : k < 2 ^ 32) :
    u32add a j ≠ u32add a k := by
  unfold u32add; omega

/-- C6: for a VOLUME GET_CUR request (selector 2, `wIndex` 0x0300, `cn < 2` or
`cn = 0xff`) the handler returns 2, leaves the device state unchanged and
writes the 16-bit value `w = (q + 0x8000) mod 2^16` with its low byte at the
payload address and its high byte at the next address, where `v` is `vol[1]`
when `cn = 1` and `vol[0]` otherwise and `q = (v * 0x8800 + 127) / 255` is the
integer nearest to `v * 0x8800 / 255`. -/
theorem C6_volume_get_cur (K : IPCReturn) (self : LogitechMic) (cmd : CtrlMessage)
    (memory : Memory) (hs : selector cmd = 2) (hr : cmd.request = REQUEST_GET_CUR)
    (hi : cmd.index = 0x0300) (hc : channel cmd < 2 ∨ channel cmd = 0xff) :
    ∃ v q w : Nat,
      v = (if (channel cmd = 1) then self.m_sampler.vol.e1 else self.m_sampler.vol.e0) ∧
      q = (v * 0x8800 + 127) / 255 ∧
      2 * (q * 255) < 2 * (v * 0x8800) + 255 ∧ 2 * (v * 0x8800) < 2 * (q * 255) + 255 ∧
      w = (q + 0x8000) % 65536 ∧
      (GetAudioControl K self cmd memory).ret = 2 ∧
      (GetAudioControl K self cmd memory).dev = self ∧
      (GetAudioControl K self cmd memory).memory.bytes cmd.data_address = w % 256 ∧
      (GetAudioControl K self cmd memory).memory.bytes (u32add cmd.data_address 1) = w / 256 ∧
      ∀ a, a ≠ cmd.data_address → a ≠ u32add cmd.data_address 1 →
        (GetAudioControl K self cmd memory).memory.bytes a = memory.bytes a := by
  have n1 : USBGETAID 2 REQUEST_GET_CUR 0x0300 ≠ USBGETAID 0 REQUEST_GET_CUR 0x0300 := by decide
  have hne := u32add_ne cmd.data_address 1 (by norm_num) (by norm_num)
  have key : GetAudioControl K self cmd memory =
      { ret := 2, dev := self
        memory := (memory.Write_U8
            (volumeToDevice (self.m_sampler.vol.get (if (channel cmd = 1) then 1 else 0)) &&& 0xFF)
            cmd.data_address).Write_U8
          (volumeToDevice (self.m_sampler.vol.get (if (channel cmd = 1) then 1 else 0)) >>> 8)
          (u32add cmd.data_address 1) } := by
    unfold GetAudioControl
    simp only [hs, hr, hi, n1, hc, if_true, if_false]
  have hget : self.m_sampler.vol.get (if (channel cmd = 1) then 1 else 0) =
      (if (channel cmd = 1) then self.m_sampler.vol.e1 else self.m_sampler.vol.e0) := by
    split_ifs <;> simp [Array2.get]
  rw [key, hget]
  generalize (if (channel cmd = 1) then self.m_sampler.vol.e1 else self.m_sampler.vol.e0) = v
  have hw : volumeToDevice v < 65536 := Nat.mod_lt _ (by norm_num)
  refine ⟨v, (v * 0x8800 + 127) / 255, volumeToDevice v, rfl, rfl, by omega, by omega, rfl, rfl,
    rfl, ?_, ?_, ?_⟩
  · simp only [Memory.Write_U8, and_0xff, hne.symm, if_false, if_true]
    omega
  · simp only [Memory.Write_U8, shr8, if_true]
    omega
  · intro a h1 h2
    simp only [Memory.Write_U8, h1, h2, if_false]


/-- A left-channel volume GET_CUR (`wValue = 0x0201`) on the initial device. -/
theorem C6_volume_get_cur_witness :
    selector ⟨7, 0x100, 0xa1, 0x81, 0x0201, 0x0300, 2⟩ = 2 ∧
      (⟨7, 0x100, 0xa1, 0x81, 0x0201, 0x0300, 2⟩ : CtrlMessage).request = REQUEST_GET_CUR ∧
      (⟨7, 0x100, 0xa1, 0x81, 0x0201, 0x0300, 2⟩ : CtrlMessage).index = 0x0300 ∧
      (channel ⟨7, 0x100, 0xa1, 0x81, 0x0201, 0x0300, 2⟩ < 2 ∨
        channel ⟨7, 0x100, 0xa1, 0x81, 0x0201, 0x0300, 2⟩ = 0xff) ∧
      (GetAudioControl ipcReturn init ⟨7, 0x100, 0xa1, 0x81, 0x0201, 0x0300, 2⟩ zeroMemory).ret
        = 2 := by
  obtain ⟨v, q, w, _, _, _, _, _, h, _⟩ :=
    C6_volume_get_cur ipcReturn init ⟨7, 0x100, 0xa1, 0x81, 0x0201, 0x0300, 2⟩ zeroMemory
      (by decide) (by decide) (by decide) (by decide)
  exact ⟨by decide, by decide, by decide, by decide, h⟩

/-- The round trip at full volume. -/
theorem C4_volume_round_trip_witness :
    (255 : Nat) ≤ 255 ∧ volumeFromDevice (volumeToDevice 255) ≤ 255 + 1 ∧
      255 ≤ volumeFromDevice (volumeToDevice 255) + 1 :=
  ⟨by decide, C4_volume_round_trip 255 (by decide)⟩

/-! ## Mute, sample rate, interface selection, isochronous transfers -/

/-- C7: after a mute SET_CUR through selector 1 with payload byte 1 has set the
flag, a GET_CUR with the same selector 1 and `wIndex` 0x0300 is not handled:
`GetAudioControl` returns `IPC_STALL` and writes nothing, because its mute case
is keyed on selector 0; only a GET_CUR with selector 0 reads the flag back. -/
theorem C7_mute_get_cur_selector_1_unhandled :
    (SetAudioControl ipcReturn init ⟨7, 0x100, 0x21, 0x01, 0x0100, 0x0300, 1⟩ muteMemory).ret = 0 ∧
      (SetAudioControl ipcReturn init ⟨7, 0x100, 0x21, 0x01, 0x0100, 0x0300, 1⟩
        muteMemory).dev.m_sampler.mute = true ∧
      (GetAudioControl ipcReturn
        (SetAudioControl ipcReturn init ⟨7, 0x100, 0x21, 0x01, 0x0100, 0x0300, 1⟩ muteMemory).dev
        ⟨8, 0x200, 0xa1, 0x81, 0x0100, 0x0300, 1⟩ muteMemory).ret = ipcReturn.IPC_STALL ∧
      (GetAudioControl ipcReturn
        (SetAudioControl ipcReturn init ⟨7, 0x100, 0x21, 0x01, 0x0100, 0x0300, 1⟩ muteMemory).dev
        ⟨8, 0x200, 0xa1, 0x81, 0x0100, 0x0300, 1⟩ muteMemory).memory.bytes 0x200 = 0 ∧
      (GetAudioControl ipcReturn
        (SetAudioControl ipcReturn init ⟨7, 0x100, 0x21, 0x01, 0x0100, 0x0300, 1⟩ muteMemory).dev
        ⟨8, 0x200, 0xa1, 0x81, 0x0000, 0x0300, 1⟩ muteMemory).ret = 1 ∧
      (GetAudioControl ipcReturn
        (SetAudioControl ipcReturn init ⟨7, 0x100, 0x21, 0x01, 0x0100, 0x0300, 1⟩ muteMemory).dev
        ⟨8, 0x200, 0xa1, 0x81, 0x0000, 0x0300, 1⟩ muteMemory).memory.bytes 0x200 = 1 := by
  decide

theorem EndpointAudioControl_set_master (K : IPCReturn) (self : LogitechMic) (cmd : CtrlMessage)
    (memory : Memory) (sr : Nat) (hsr : sr < 2 ^ 24)
    (hs : selector cmd = 1) (hr : cmd.request = REQUEST_SET_CUR) (hi : cmd.index = 0x0081)
    (hc : channel cmd = 0xff)
    (hp0 : memory.Read_U8 cmd.data_address = sr % 256)
    (hp1 : memory.Read_U8 (u32add cmd.data_address 1) = sr / 256 % 256)
    (hp2 : memory.Read_U8 (u32add cmd.data_address 2) = sr / 65536 % 256) :
    (EndpointAudioControl K self cmd memory).ret = 0 ∧
      (EndpointAudioControl K self cmd memory).memory = memory ∧
      (EndpointAudioControl K self cmd memory).dev.m_sampler.srate.get 0 = sr := by
  have hdec := sr_decode (sr % 256) (sr / 256 % 256) (sr / 65536 % 256)
    (Nat.mod_lt _ (by norm_num)) (Nat.mod_lt _ (by norm_num)) (Nat.mod_lt _ (by norm_num))
  have hval : (sr % 256 ||| (sr / 256 % 256) <<< 8 ||| (sr / 65536 % 256) <<< 16) % 2 ^ 32 = sr := by
    rw [hdec]; omega
  unfold EndpointAudioControl
  simp only [hs, hr, hi, hc, if_true, hp0, hp1, hp2, hval]
  split_ifs with h
  · simp [Array2.get, Array2.set]
  · simp only [ne_eq, not_not] at h
    exact ⟨rfl, rfl, h⟩

theorem EndpointAudioControl_get (K : IPCReturn) (self : LogitechMic) (cmd : CtrlMessage)
    (memory : Memory) (hs : selector cmd = 1) (hr : cmd.request = REQUEST_GET_CUR)
    (hi : cmd.index = 0x0081) :
    (EndpointAudioControl K self cmd memory).ret = 3 ∧
      (EndpointAudioControl K self cmd memory).dev = self ∧
      (EndpointAudioControl K self cmd memory).memory.bytes cmd.data_address =
        self.m_sampler.srate.get 0 % 256 ∧
      (EndpointAudioControl K self cmd memory).memory.bytes (u32add cmd.data_address 1) =
        self.m_sampler.srate.get 0 / 256 % 256 ∧
      (EndpointAudioControl K self cmd memory).memory.bytes (u32add cmd.data_address 2) =
        self.m_sampler.srate.get 0 / 65536 % 256 ∧
      ∀ a, a ≠ cmd.data_address → a ≠ u32add cmd.data_address 1 →
        a ≠ u32add cmd.data_address 2 →
        (EndpointAudioControl K self cmd memory).memory.bytes a = memory.bytes a := by
  have n1 : USBGETAID 1 REQUEST_GET_CUR 0x0081 ≠ USBGETAID 1 REQUEST_SET_CUR 0x0081 := by decide
  have h01 := u32add_ne cmd.data_address 1 (by norm_num) (by norm_num)
  have h02 := u32add_ne cmd.data_address 2 (by norm_num) (by norm_num)
  have h12 := u32add_ne_u32add cmd.data_address 1 2 (by norm_num) (by norm_num)
  unfold EndpointAudioControl
  simp only [hs, hr, hi, n1, if_true, if_false, Memory.Write_U8, and_0xff, shr8, shr16,
    h01.symm, h02.symm, h12, Nat.mod_mod]
  refine ⟨trivial, trivial, trivial, trivial, trivial, ?_⟩
  intro a ha0 ha1 ha2
  simp only [ha0, ha1, ha2, if_false]

/-- C8: sample-rate exactness. For every `sr` in `{8000, 11025, 22050, 44100,
48000}` and every prior state, a SET_CUR to the endpoint (selector 1, `wIndex`
0x0081, master channel `cn = 0xff`) whose payload holds `sr` as three
little-endian bytes returns 0, and a following GET_CUR (selector 1, `wIndex`
0x0081) returns 3 and writes those same three bytes, low byte first. -/
theorem C8_sample_rate_exact (K : IPCReturn) (self : LogitechMic) (cmd cmd2 : CtrlMessage)
    (memory : Memory) (sr : Nat) (hsr : sr ∈ [8000, 11025, 22050, 44100, 48000])
    (hs : selector cmd = 1) (hr : cmd.request = REQUEST_SET_CUR) (hi : cmd.index = 0x0081)
    (hc : channel cmd = 0xff)
    (hp0 : memory.Read_U8 cmd.data_address = sr % 256)
    (hp1 : memory.Read_U8 (u32add cmd.data_address 1) = sr / 256 % 256)
    (hp2 : memory.Read_U8 (u32add cmd.data_address 2) = sr / 65536 % 256)
    (hs2 : selector cmd2 = 1) (hr2 : cmd2.request = REQUEST_GET_CUR)
    (hi2 : cmd2.index = 0x0081) :
    (EndpointAudioControl K self cmd memory).ret = 0 ∧
      (EndpointAudioControl K (EndpointAudioControl K self cmd memory).dev cmd2
        (EndpointAudioControl K self cmd memory).memory).ret = 3 ∧
      (EndpointAudioControl K (EndpointAudioControl K self cmd memory).dev cmd2
        (EndpointAudioControl K self cmd memory).memory).memory.bytes cmd2.data_address =
          sr % 256 ∧
      (EndpointAudioControl K (EndpointAudioControl K self cmd memory).dev cmd2
        (EndpointAudioControl K self cmd memory).memory).memory.bytes
          (u32add cmd2.data_address 1) = sr / 256 % 256 ∧
      (EndpointAudioControl K (EndpointAudioControl K self cmd memory).dev cmd2
        (EndpointAudioControl K self cmd memory).memory).memory.bytes
          (u32add cmd2.data_address 2) = sr / 65536 % 256 := by
  have hlt : sr < 2 ^ 24 := by
    simp only [List.mem_cons, List.mem_singleton, List.not_mem_nil, or_false] at hsr
    omega
  obtain ⟨h1, _, h3⟩ :=
    EndpointAudioControl_set_master K self cmd memory sr hlt hs hr hi hc hp0 hp1 hp2
  obtain ⟨g1, _, g3, g4, g5, _⟩ :=
    EndpointAudioControl_get K (EndpointAudioControl K self cmd memory).dev cmd2
      (EndpointAudioControl K self cmd memory).memory hs2 hr2 hi2
  rw [h3] at g3 g4 g5
  exact ⟨h1, g1, g3, g4, g5⟩

/-- Setting 48000 Hz on the master channel and reading it back. -/
theorem C8_sample_rate_exact_witness :
    (48000 ∈ [8000, 11025, 22050, 44100, 48000]) ∧
      selector ⟨7, 0x100, 0x22, 0x01, 0x0100, 0x0081, 3⟩ = 1 ∧
      channel ⟨7, 0x100, 0x22, 0x01, 0x0100, 0x0081, 3⟩ = 0xff ∧
      rateMemory.Read_U8 0x100 = 48000 % 256 ∧
      rateMemory.Read_U8 (u32add 0x100 1) = 48000 / 256 % 256 ∧
      rateMemory.Read_U8 (u32add 0x100 2) = 48000 / 65536 % 256 ∧
      selector ⟨8, 0x200, 0x22, 0x81, 0x0100, 0x0081, 3⟩ = 1 ∧
      (EndpointAudioControl ipcReturn
        (EndpointAudioControl ipcReturn init ⟨7, 0x100, 0x22, 0x01, 0x0100, 0x0081, 3⟩
          rateMemory).dev ⟨8, 0x200, 0x22, 0x81, 0x0100, 0x0081, 3⟩
        (EndpointAudioControl ipcReturn init ⟨7, 0x100, 0x22, 0x01, 0x0100, 0x0081, 3⟩
          rateMemory).memory).ret = 3 :=
  ⟨by decide, by decide, by decide, by decide, by decide, by decide, by decide,
    (C8_sample_rate_exact ipcReturn init ⟨7, 0x100, 0x22, 0x01, 0x0100, 0x0081, 3⟩
      ⟨8, 0x200, 0x22, 0x81, 0x0100, 0x0081, 3⟩ rateMemory 48000 (by decide) (by decide)
      (by decide) (by decide) (by decide) (by decide) (by decide) (by decide) (by decide)
      (by decide) (by decide)).2.1⟩

/-- C9: a SET_INTERFACE control transfer with `wIndex = 2`, submitted to the
constructed device, stores 2 as the active interface index; the index is then
outside both two-entry tables and neither `GetInterfaces` nor `GetEndpoints`
has an entry to return. `ChangeInterface` and `AttachAndChangeInterface` store
an out-of-range argument in the same way. -/
theorem C9_set_interface_leaves_tables :
    (run ipcReturn zeroMemory
      [Event.SubmitTransfer ⟨7, 0x100, 0x01, 11, 0, 2, 0⟩]).1.m_active_interface = 2 ∧
      (run ipcReturn zeroMemory
        [Event.SubmitTransfer ⟨7, 0x100, 0x01, 11, 0, 2, 0⟩]).1.GetInterfaces 0 = none ∧
      (run ipcReturn zeroMemory
        [Event.SubmitTransfer ⟨7, 0x100, 0x01, 11, 0, 2, 0⟩]).1.GetEndpoints 0 0 0 = none ∧
      (run ipcReturn zeroMemory [Event.ChangeInterface 2]).1.GetInterfaces 0 = none ∧
      (run ipcReturn zeroMemory [Event.AttachAndChangeInterface 2]).1.GetEndpoints 0 0 0 = none := by
  decide

/-! ## The isochronous feeder -/

theorem dummyData_length : dummyData.length = 800 := by
  simp [dummyData]

theorem dummyData_getD (i : Nat) (h : i < 800) : dummyData.getD i 0 = placeholder i := by
  have hl : i < (List.range 800).length := by simpa using h
  simp only [dummyData, List.getD_eq_getElem?_getD, List.getElem?_map,
    List.getElem?_eq_getElem hl, List.getElem_range, Option.map_some', Option.getD_some,
    placeholder]
  split_ifs <;> omega

theorem range_getD (m : Memory) (address size i : Nat) (h : i < size) :
    (m.range address size).getD i 0 = m.bytes (address + i) := by
  have hl : i < (List.range size).length := by simpa using h
  simp only [Memory.range, List.getD_eq_getElem?_getD, List.getElem?_map,
    List.getElem?_eq_getElem hl, List.getElem_range, Option.map_some', Option.getD_some]

theorem range_length (m : Memory) (address size : Nat) : (m.range address size).length = size := by
  simp [Memory.range]

theorem packet_loop_zero (cmd : IsoMessage) (l : List Nat) (acc : List (Nat × Nat)) :
    l.foldl (packetStep cmd) (0, acc) = (0, acc ++ l.map fun i => (i, 0)) := by
  induction l generalizing acc with
  | nil => simp
  | cons i t ih =>
    have hs : packetStep cmd (0, acc) i = (0, acc ++ [(i, 0)]) := by
      simp [packetStep]
    rw [List.foldl_cons, hs, ih]
    simp

/-- A transfer to the audio-in endpoint with a resolving range and a requested
length above 800 has no defined outcome. -/
theorem iso_overread (K : IPCReturn) (self : LogitechMic) (cmd : IsoMessage)
    (memory : Memory) (hr : memory.range_ok cmd.data_address cmd.length = true)
    (he : cmd.endpoint = ENDPOINT_AUDIO_IN) (hn : 800 < cmd.length) :
    SubmitTransfer_Iso K self cmd memory = none := by
  have hsrc : ¬ cmd.length ≤ dummyData.length := by rw [dummyData_length]; omega
  unfold SubmitTransfer_Iso
  simp only [hr, Bool.true_eq_false, if_false, he, if_true, Memory.CopyToEmu, hsrc,
    Option.none_bind]

/-- A transfer to the audio-in endpoint with a resolving range and a requested
length of at most 800 bytes returns `IPC_SUCCESS`, fills the buffer with the
placeholder waveform (byte `i` depends on `i` only), changes no byte outside the
buffer, delivers 0 to every packet, in order, and schedules one completion for
the requested length with latency 100. -/
theorem iso_audio_in_bounded (K : IPCReturn) (self : LogitechMic) (cmd : IsoMessage)
    (memory : Memory) (hr : memory.range_ok cmd.data_address cmd.length = true)
    (he : cmd.endpoint = ENDPOINT_AUDIO_IN) (hn : cmd.length ≤ 800) :
    ∃ r, SubmitTransfer_Iso K self cmd memory = some r ∧
      r.ret = K.IPC_SUCCESS ∧
      (∀ i, i < cmd.length → r.memory.bytes (cmd.data_address + i) = placeholder i) ∧
      (∀ a, ¬(cmd.data_address ≤ a ∧ a < cmd.data_address + cmd.length) →
        r.memory.bytes a = memory.bytes a) ∧
      r.packet_returns = (List.range cmd.num_packets).map (fun i => (i, 0)) ∧
      r.completions = [(cmd.length, 100)] := by
  have hsrc : cmd.length ≤ dummyData.length := by rw [dummyData_length]; exact hn
  unfold SubmitTransfer_Iso
  simp only [hr, Bool.true_eq_false, if_false, he, if_true, Memory.CopyToEmu, hsrc,
    Option.some_bind, IsoMessage.FillBuffer, range_length, le_refl, Option.map_some',
    packet_loop_zero, List.nil_append]
  refine ⟨_, rfl, rfl, ?_, ?_, rfl, rfl⟩
  · intro i hi
    have h1 : cmd.data_address ≤ cmd.data_address + i ∧
        cmd.data_address + i < cmd.data_address + cmd.length := by omega
    simp only [h1, and_self, if_true, Nat.add_sub_cancel_left, range_getD _ _ _ _ hi]
    exact dummyData_getD i (by omega)
  · intro a ha
    simp only [ha, if_false]

/-- C11: the fill copies `cmd->length` bytes out of the 800-byte array that
`dummyData()` returns. For a transfer to endpoint 0x81 with a valid buffer and
requested length 801 the copy reads past the end of that array (there is no
element 800), so the buffer contents, and with them the outcome of the call,
are not defined; with length 800 the fill is defined and the last byte is the
waveform value 0xFF. -/
theorem C11_iso_fill_reads_past_placeholder :
    dummyData.length = 800 ∧
      zeroMemory.range_ok 0x100 801 = true ∧
      SubmitTransfer_Iso ipcReturn init ⟨7, 0x100, 801, 1, 0x81, [801]⟩ zeroMemory = none ∧
      Memory.CopyToEmu zeroMemory 0x100 dummyData 801 = none ∧
      dummyData[800]? = none ∧
      ((SubmitTransfer_Iso ipcReturn init ⟨7, 0x100, 800, 1, 0x81, [800]⟩
        zeroMemory).map fun r => r.memory.bytes (0x100 + 799)) = some 0xff := by
  have h : ¬ (801 ≤ dummyData.length) := by rw [dummyData_length]; decide
  refine ⟨dummyData_length, rfl, iso_overread _ _ _ _ rfl rfl (by decide), ?_, ?_, ?_⟩
  · rw [Memory.CopyToEmu, if_neg h]
  · rw [List.getElem?_eq_none]; rw [dummyData_length]
  · obtain ⟨r, hr, _, hb, _⟩ :=
      iso_audio_in_bounded ipcReturn init ⟨7, 0x100, 800, 1, 0x81, [800]⟩ zeroMemory rfl rfl
        (by decide)
    rw [hr]
    simp only [Option.map_some', Option.some.injEq]
    exact hb 799 (by decide)

set_option maxRecDepth 100000 in
/-- C13: the merged blob is a well-formed descriptor chain. Walking from offset
0 by the `bLength` bytes visits exactly 17 descriptors with non-zero `bLength`
and stops at offset 177, which holds the terminator byte 0 and equals the
little-endian `wTotalLength` (0x00B1) of the 9-byte configuration header, whose
`bNumInterfaces` is 2; with the terminator the blob is 178 bytes. -/
theorem C13_descriptor_chain :
    m_full_descriptor.length = 178 ∧
      descriptorChain m_full_descriptor 178 0 =
        ([0, 9, 18, 27, 39, 48, 58, 67, 76, 83, 106, 115, 122, 131, 138, 161, 170], 177) ∧
      (descriptorChain m_full_descriptor 178 0).1.length = 17 ∧
      m_full_descriptor[177]? = some 0 ∧
      le16 m_full_descriptor 2 = 0x00b1 ∧
      le16 m_full_descriptor 2 = (descriptorChain m_full_descriptor 178 0).2 ∧
      m_full_descriptor[0]? = some 9 ∧
      m_full_descriptor[4]? = some 2 ∧
      (descriptorChain m_full_descriptor 178 0).2 + 1 = m_full_descriptor.length := by
  decide

set_option maxRecDepth 100000 in
/-- C14: the two Audio Type I Format descriptors of the blob are the chain
entries at offsets 83 (after interface 1 alternate setting 1, one channel) and
138 (after interface 1 alternate setting 2, two channels); each declares
`bSamFreqType = 5`, and its five 3-byte little-endian `tSamFreq` entries decode,
in order, to 8000, 11025, 22050, 44100 and 48000. -/
theorem C14_sample_rate_tables :
    ((descriptorChain m_full_descriptor 178 0).1.filter fun o =>
        decide (m_full_descriptor.getD o 0 = 0x17 ∧ m_full_descriptor.getD (o + 1) 0 = 0x24 ∧
          m_full_descriptor.getD (o + 2) 0 = 0x02)) = [83, 138] ∧
      (m_full_descriptor[67 + 2]? = some 1 ∧ m_full_descriptor[67 + 3]? = some 1) ∧
      m_full_descriptor[83 + 4]? = some 1 ∧ m_full_descriptor[138 + 4]? = some 2 ∧
      (m_full_descriptor[83]? = some 0x17 ∧ m_full_descriptor[83 + 1]? = some 0x24 ∧
        m_full_descriptor[83 + 2]? = some 0x02 ∧ m_full_descriptor[83 + 3]? = some 0x01) ∧
      m_full_descriptor[83 + 7]? = some 5 ∧
      (List.range 5).map (tSamFreq m_full_descriptor 83) = [8000, 11025, 22050, 44100, 48000] ∧
      (m_full_descriptor[122 + 2]? = some 1 ∧ m_full_descriptor[122 + 3]? = some 2) ∧
      (m_full_descriptor[138]? = some 0x17 ∧ m_full_descriptor[138 + 1]? = some 0x24 ∧
        m_full_descriptor[138 + 2]? = some 0x02 ∧ m_full_descriptor[138 + 3]? = some 0x01) ∧
      m_full_descriptor[138 + 7]? = some 5 ∧
      (List.range 5).map (tSamFreq m_full_descriptor 138) = [8000, 11025, 22050, 44100, 48000] := by
  decide

/-! ## Volume range, interface selection, endpoint routing, channel targeting -/

theorem Read_U16_Write_U16 (m : Memory) (value address : Nat) :
    (m.Write_U16 value address).Read_U16 address = value % 65536 := by
  have hne := u32add_ne address 1 (by norm_num) (by norm_num)
  have hlo : value % 256 < 256 := Nat.mod_lt _ (by norm_num)
  have hhi : (value % 65536) / 256 % 256 < 256 := Nat.mod_lt _ (by norm_num)
  have e := sr_decode (value % 256) ((value % 65536) / 256 % 256) 0 hlo hhi (by norm_num)
  simp only [Nat.zero_shiftLeft, Nat.or_zero, Nat.mul_zero, Nat.add_zero] at e
  unfold Memory.Write_U16 Memory.Read_U16
  cases hb : m.big_endian
  · simp only [Bool.false_eq_true, if_false, Memory.Write_U8, Memory.Read_U8, hb, hne.symm,
      if_true, shr8, Nat.mod_mod]
    rw [e]; omega
  · simp only [if_true, Memory.Write_U8, Memory.Read_U8, hb, hne.symm, if_false, shr8,
      Nat.mod_mod]
    rw [Nat.lor_comm, e]; omega

theorem GetAudioControl_min (K : IPCReturn) (self : LogitechMic) (cmd : CtrlMessage)
    (memory : Memory) (hs : selector cmd = 2) (hi : cmd.index = 0x0300)
    (hr : cmd.request = REQUEST_GET_MIN) :
    GetAudioControl K self cmd memory =
      if channel cmd < 2 ∨ channel cmd = 0xff then
        { ret := 2, dev := self, memory := memory.Write_U16 0x8001 cmd.data_address }
      else
        { ret := K.IPC_STALL, dev := self, memory := memory } := by
  have n1 : USBGETAID 2 REQUEST_GET_MIN 0x0300 ≠ USBGETAID 0 REQUEST_GET_CUR 0x0300 := by decide
  have n2 : USBGETAID 2 REQUEST_GET_MIN 0x0300 ≠ USBGETAID 2 REQUEST_GET_CUR 0x0300 := by decide
  unfold GetAudioControl
  simp only [hs, hr, hi, n1, n2, if_true, if_false]

theorem GetAudioControl_max (K : IPCReturn) (self : LogitechMic) (cmd : CtrlMessage)
    (memory : Memory) (hs : selector cmd = 2) (hi : cmd.index = 0x0300)
    (hr : cmd.request = REQUEST_GET_MAX) :
    GetAudioControl K self cmd memory =
      if channel cmd < 2 ∨ channel cmd = 0xff then
        { ret := 2, dev := self, memory := memory.Write_U16 0x0800 cmd.data_address }
      else
        { ret := K.IPC_STALL, dev := self, memory := memory } := by
  have n1 : USBGETAID 2 REQUEST_GET_MAX 0x0300 ≠ USBGETAID 0 REQUEST_GET_CUR 0x0300 := by decide
  have n2 : USBGETAID 2 REQUEST_GET_MAX 0x0300 ≠ USBGETAID 2 REQUEST_GET_CUR 0x0300 := by decide
  have n3 : USBGETAID 2 REQUEST_GET_MAX 0x0300 ≠ USBGETAID 2 REQUEST_GET_MIN 0x0300 := by decide
  unfold GetAudioControl
  simp only [hs, hr, hi, n1, n2, n3, if_true, if_false]

theorem GetAudioControl_res (K : IPCReturn) (self : LogitechMic) (cmd : CtrlMessage)
    (memory : Memory) (hs : selector cmd = 2) (hi : cmd.index = 0x0300)
    (hr : cmd.request = REQUEST_GET_RES) :
    GetAudioControl K self cmd memory =
      if channel cmd < 2 ∨ channel cmd = 0xff then
        { ret := 2, dev := self, memory := memory.Write_U16 0x0088 cmd.data_address }
      else
        { ret := K.IPC_STALL, dev := self, memory := memory } := by
  have n1 : USBGETAID 2 REQUEST_GET_RES 0x0300 ≠ USBGETAID 0 REQUEST_GET_CUR 0x0300 := by decide
  have n2 : USBGETAID 2 REQUEST_GET_RES 0x0300 ≠ USBGETAID 2 REQUEST_GET_CUR 0x0300 := by decide
  have n3 : USBGETAID 2 REQUEST_GET_RES 0x0300 ≠ USBGETAID 2 REQUEST_GET_MIN 0x0300 := by decide
  have n4 : USBGETAID 2 REQUEST_GET_RES 0x0300 ≠ USBGETAID 2 REQUEST_GET_MAX 0x0300 := by decide
  unfold GetAudioControl
  simp only [hs, hr, hi, n1, n2, n3, n4, if_true, if_false]

/-- C15: for every device state and every `wValue` with selector 2 at `wIndex`
0x0300, GET_MIN, GET_MAX and GET_RES leave the device state unchanged; when
`cn < 2` or `cn = 0xff` they return 2 and write with `Write_U16` the fixed
constants 0x8001, 0x0800 and 0x0088 respectively, whatever the stored volumes
are; for every other `cn` they return `IPC_STALL` and write nothing. -/
theorem C15_volume_range_constants (K : IPCReturn) (self : LogitechMic) (cmd : CtrlMessage)
    (memory : Memory) (hs : selector cmd = 2) (hi : cmd.index = 0x0300)
    (hr : cmd.request = REQUEST_GET_MIN ∨ cmd.request = REQUEST_GET_MAX ∨
      cmd.request = REQUEST_GET_RES) :
    (volumeRangeConstant REQUEST_GET_MIN = 0x8001 ∧ volumeRangeConstant REQUEST_GET_MAX = 0x0800 ∧
        volumeRangeConstant REQUEST_GET_RES = 0x0088) ∧
      (GetAudioControl K self cmd memory).dev = self ∧
      (channel cmd < 2 ∨ channel cmd = 0xff →
        (GetAudioControl K self cmd memory).ret = 2 ∧
        (GetAudioControl K self cmd memory).memory =
          memory.Write_U16 (volumeRangeConstant cmd.request) cmd.data_address ∧
        (GetAudioControl K self cmd memory).memory.Read_U16 cmd.data_address =
          volumeRangeConstant cmd.request) ∧
      (¬(channel cmd < 2 ∨ channel cmd = 0xff) →
        (GetAudioControl K self cmd memory).ret = K.IPC_STALL ∧
        (GetAudioControl K self cmd memory).memory = memory) := by
  have c1 : volumeRangeConstant REQUEST_GET_MIN = 0x8001 := by decide
  have c2 : volumeRangeConstant REQUEST_GET_MAX = 0x0800 := by decide
  have c3 : volumeRangeConstant REQUEST_GET_RES = 0x0088 := by decide
  refine ⟨⟨c1, c2, c3⟩, ?_⟩
  rcases hr with hr | hr | hr
  · rw [GetAudioControl_min K self cmd memory hs hi hr, hr, c1]
    by_cases hc : channel cmd < 2 ∨ channel cmd = 0xff
    · simp [hc, Read_U16_Write_U16]
    · simp [hc]
  · rw [GetAudioControl_max K self cmd memory hs hi hr, hr, c2]
    by_cases hc : channel cmd < 2 ∨ channel cmd = 0xff
    · simp [hc, Read_U16_Write_U16]
    · simp [hc]
  · rw [GetAudioControl_res K self cmd memory hs hi hr, hr, c3]
    by_cases hc : channel cmd < 2 ∨ channel cmd = 0xff
    · simp [hc, Read_U16_Write_U16]
    · simp [hc]

/-- A master-channel GET_MIN (`wValue = 0x0200`) on the initial device. -/
theorem C15_volume_range_constants_witness :
    selector ⟨7, 0x100, 0xa1, 0x82, 0x0200, 0x0300, 2⟩ = 2 ∧
      (⟨7, 0x100, 0xa1, 0x82, 0x0200, 0x0300, 2⟩ : CtrlMessage).index = 0x0300 ∧
      (⟨7, 0x100, 0xa1, 0x82, 0x0200, 0x0300, 2⟩ : CtrlMessage).request = REQUEST_GET_MIN ∧
      (GetAudioControl ipcReturn init ⟨7, 0x100, 0xa1, 0x82, 0x0200, 0x0300, 2⟩ zeroMemory).dev =
        init :=
  ⟨by decide, by decide, by decide,
    (C15_volume_range_constants ipcReturn init ⟨7, 0x100, 0xa1, 0x82, 0x0200, 0x0300, 2⟩
      zeroMemory (by decide) (by decide) (Or.inl (by decide))).2.1⟩

/-- C16: interface change no-op. For every interface index `i` and every device
state whose active interface is already `i`, `ChangeInterface(i)` returns 0 and
leaves the whole device state (active interface, attached flag, sampler state,
backend handle) unchanged. -/
theorem C16_change_interface_noop (self : LogitechMic) (i : Nat)
    (h : self.m_active_interface = i) :
    (self.ChangeInterface i).1 = 0 ∧ (self.ChangeInterface i).2 = self ∧
      (self.ChangeInterface i).2.m_active_interface = self.m_active_interface ∧
      (self.ChangeInterface i).2.m_device_attached = self.m_device_attached ∧
      (self.ChangeInterface i).2.m_sampler = self.m_sampler := by
  subst h
  exact ⟨rfl, rfl, rfl, rfl, rfl⟩

/-- Changing the constructed device to interface 0. -/
theorem C16_change_interface_noop_witness :
    init.m_active_interface = 0 ∧ (init.ChangeInterface 0).1 = 0 ∧ (init.ChangeInterface 0).2 = init :=
  ⟨rfl, (C16_change_interface_noop init 0 rfl).1, (C16_change_interface_noop init 0 rfl).2.1⟩

/-- C17, as stated, fails at `wIndex = 0x0100`: a SET_INTERFACE with that index
leaves the active interface index at 0, which is not `wIndex`. -/
theorem C17_counterexample_index_256 :
    opcode ⟨7, 0x100, 0x01, 11, 0, 0x0100, 5⟩ =
        USBHDR DIR_HOST2DEVICE TYPE_STANDARD REC_INTERFACE REQUEST_SET_INTERFACE ∧
      (SubmitTransfer_Ctrl ipcReturn init ⟨7, 0x100, 0x01, 11, 0, 0x0100, 5⟩
        zeroMemory).dev.m_active_interface = 0 ∧
      (SubmitTransfer_Ctrl ipcReturn init ⟨7, 0x100, 0x01, 11, 0, 0x0100, 5⟩
        zeroMemory).dev.m_active_interface ≠
        (⟨7, 0x100, 0x01, 11, 0, 0x0100, 5⟩ : CtrlMessage).index := by
  decide

/-- C17, amended: after a standard SET_INTERFACE control transfer the active
interface index equals `wIndex mod 256`, the `u8` the source casts `wIndex` to
(so it equals `wIndex` whenever `wIndex < 256`); the sampler state, the
attached flag, the backend handle and the memory are unchanged, the single
reply carries the requested length `wLength`, and the call returns 0. -/
theorem C17_set_interface (K : IPCReturn) (self : LogitechMic) (cmd : CtrlMessage)
    (memory : Memory)
    (h : opcode cmd = USBHDR DIR_HOST2DEVICE TYPE_STANDARD REC_INTERFACE REQUEST_SET_INTERFACE) :
    (SubmitTransfer_Ctrl K self cmd memory).dev.m_active_interface = cmd.index % 256 ∧
      (cmd.index < 256 →
        (SubmitTransfer_Ctrl K self cmd memory).dev.m_active_interface = cmd.index) ∧
      (SubmitTransfer_Ctrl K self cmd memory).dev.m_sampler = self.m_sampler ∧
      (SubmitTransfer_Ctrl K self cmd memory).dev.m_device_attached = self.m_device_attached ∧
      (SubmitTransfer_Ctrl K self cmd memory).dev.m_microphone = self.m_microphone ∧
      (SubmitTransfer_Ctrl K self cmd memory).replies = [(cmd.ios_request, (cmd.length : Int))] ∧
      (SubmitTransfer_Ctrl K self cmd memory).ret = 0 ∧
      (SubmitTransfer_Ctrl K self cmd memory).memory = some memory := by
  have e2 : USBHDR DIR_HOST2DEVICE TYPE_STANDARD REC_INTERFACE REQUEST_SET_INTERFACE = 0x010b := by
    decide
  rw [e2] at h
  have n1 : opcode cmd ≠ 0x8006 := by omega
  rw [SubmitTransfer_Ctrl_eq, if_neg n1, if_pos h]
  exact ⟨rfl, fun hlt => Nat.mod_eq_of_lt hlt, rfl, rfl, rfl, rfl, rfl, rfl⟩

/-- A SET_INTERFACE to interface 1 with requested length 5. -/
theorem C17_set_interface_witness :
    opcode ⟨7, 0x100, 0x01, 11, 0, 1, 5⟩ =
        USBHDR DIR_HOST2DEVICE TYPE_STANDARD REC_INTERFACE REQUEST_SET_INTERFACE ∧
      (SubmitTransfer_Ctrl ipcReturn init ⟨7, 0x100, 0x01, 11, 0, 1, 5⟩ zeroMemory).replies =
        [(7, 5)] :=
  ⟨by decide, (C17_set_interface ipcReturn init ⟨7, 0x100, 0x01, 11, 0, 1, 5⟩ zeroMemory
    (by decide)).2.2.2.2.2.1⟩

theorem endpoint_host2device_delegated (K : IPCReturn) (self : LogitechMic) (cmd : CtrlMessage)
    (memory : Memory) (h : opcode cmd ∈ endpointOpcodes) :
    SubmitTransfer_Ctrl K self cmd memory =
      classReply K cmd (EndpointAudioControl K self cmd memory) := by
  have hg := getOpcodes_eq
  have hs := setOpcodes_eq
  have h1c := h
  rw [endpointOpcodes_eq] at h1c
  simp only [List.mem_cons, List.mem_singleton, List.not_mem_nil, or_false] at h1c
  have n1 : opcode cmd ≠ 0x8006 := by omega
  have n2 : opcode cmd ≠ 0x010b := by omega
  have n3 : opcode cmd ∉ getOpcodes := by
    rw [hg]
    simp only [List.mem_cons, List.mem_singleton, List.not_mem_nil, or_false]
    omega
  have n4 : opcode cmd ∉ setOpcodes := by
    rw [hs]
    simp only [List.mem_cons, List.mem_singleton, List.not_mem_nil, or_false]
    omega
  rw [SubmitTransfer_Ctrl_eq]
  simp [n1, n2, n3, n4, h]

theorem endpoint_device2host_stall (K : IPCReturn) (self : LogitechMic) (cmd : CtrlMessage)
    (memory : Memory) (ht : cmd.request_type = 0xa2) (hq : cmd.request < 256) :
    (SubmitTransfer_Ctrl K self cmd memory).replies = [(cmd.ios_request, K.IPC_STALL)] ∧
      (SubmitTransfer_Ctrl K self cmd memory).dev = self ∧
      (SubmitTransfer_Ctrl K self cmd memory).memory = some memory := by
  have hop : opcode cmd = 0xa200 + cmd.request := by
    have e := Nat.mul_add_lt_is_or (show cmd.request < 2 ^ 8 by omega) 0xa2
    simp only [opcode, ht, Nat.shiftLeft_eq]
    rw [Nat.mul_comm, ← e]
  have hu : Unrouted cmd := by
    refine Or.inl ⟨?_, ?_, ?_, ?_⟩
    · rw [standardOpcodes_eq]
      simp only [List.mem_cons, List.mem_singleton, List.not_mem_nil, or_false]
      omega
    · rw [getOpcodes_eq]
      simp only [List.mem_cons, List.mem_singleton, List.not_mem_nil, or_false]
      omega
    · rw [setOpcodes_eq]
      simp only [List.mem_cons, List.mem_singleton, List.not_mem_nil, or_false]
      omega
    · rw [endpointOpcodes_eq]
      simp only [List.mem_cons, List.mem_singleton, List.not_mem_nil, or_false]
      omega
  have key : SubmitTransfer_Ctrl K self cmd memory =
      { ret := K.IPC_SUCCESS, dev := self, memory := some memory
        replies := [(cmd.ios_request, K.IPC_STALL)] } := by
    rw [SubmitTransfer_Ctrl_eq]
    rcases hu with ⟨h1, h2, h3, h4⟩ | ⟨h1, _⟩ | ⟨h1, _⟩ | ⟨h1, _⟩
    · rw [standardOpcodes_eq] at h1
      simp only [List.mem_cons, List.mem_singleton, List.not_mem_nil, or_false, not_or] at h1
      simp [h1.1, h1.2, h2, h3, h4]
    · rw [getOpcodes_eq] at h1
      simp only [List.mem_cons, List.mem_singleton, List.not_mem_nil, or_false] at h1
      omega
    · rw [setOpcodes_eq] at h1
      simp only [List.mem_cons, List.mem_singleton, List.not_mem_nil, or_false] at h1
      omega
    · rw [endpointOpcodes_eq] at h1
      simp only [List.mem_cons, List.mem_singleton, List.not_mem_nil, or_false] at h1
      omega
  rw [key]
  exact ⟨rfl, rfl, rfl⟩

/-- C18: a device-to-host class GET_CUR of the sample rate to the endpoint
(`bmRequestType = 0xa2`, selector 1, `wIndex` 0x0081) is not delegated: the
endpoint cases of the dispatcher are all labelled `DIR_HOST2DEVICE`, so the
request falls to the default branch and is answered with `IPC_STALL`, although
`EndpointAudioControl` would return 3 for it; the same request with the
host-to-device direction bit (`0x22`) is answered with 3. -/
theorem C18_endpoint_device2host_get_cur_stalls :
    (⟨7, 0x200, 0xa2, 0x81, 0x0100, 0x0081, 3⟩ : CtrlMessage).request_type =
        ((DIR_DEVICE2HOST <<< 7) ||| (TYPE_CLASS <<< 5) ||| REC_ENDPOINT) ∧
      selector ⟨7, 0x200, 0xa2, 0x81, 0x0100, 0x0081, 3⟩ = 1 ∧
      (EndpointAudioControl ipcReturn init ⟨7, 0x200, 0xa2, 0x81, 0x0100, 0x0081, 3⟩
        zeroMemory).ret = 3 ∧
      (SubmitTransfer_Ctrl ipcReturn init ⟨7, 0x200, 0xa2, 0x81, 0x0100, 0x0081, 3⟩
        zeroMemory).replies = [(7, ipcReturn.IPC_STALL)] ∧
      (SubmitTransfer_Ctrl ipcReturn init ⟨7, 0x200, 0x22, 0x81, 0x0100, 0x0081, 3⟩
        zeroMemory).replies = [(7, 3)] := by
  decide

theorem volumeFromDevice_le (d : Nat) : volumeFromDevice d ≤ 255 := by
  rw [volumeFromDevice_eq]; exact Nat.min_le_right _ _

/-- C19: channel targeting of VOLUME SET_CUR (selector 2, `wIndex` 0x0300). With
`cn = 0xff` both `vol[0]` and `vol[1]` end equal to the decoded value; with
`cn` 0 or 1, `vol[cn]` ends equal to the decoded value and the other channel is
unchanged; mute, the sample rates and every other sampler field are unchanged;
and the final volumes are those of the unguarded stores, so the "only if
changed" guard is not observable in the state. -/
theorem C19_volume_channel_targeting (K : IPCReturn) (self : LogitechMic) (cmd : CtrlMessage)
    (memory : Memory) (hs : selector cmd = 2) (hr : cmd.request = REQUEST_SET_CUR)
    (hi : cmd.index = 0x0300) (hc : channel cmd < 2 ∨ channel cmd = 0xff) :
    (channel cmd = 0xff →
        (SetAudioControl K self cmd memory).dev.m_sampler.vol.get 0 =
          volumeFromDevice (memory.Read_U16 cmd.data_address) ∧
        (SetAudioControl K self cmd memory).dev.m_sampler.vol.get 1 =
          volumeFromDevice (memory.Read_U16 cmd.data_address)) ∧
      (channel cmd = 0 →
        (SetAudioControl K self cmd memory).dev.m_sampler.vol.get 0 =
          volumeFromDevice (memory.Read_U16 cmd.data_address) ∧
        (SetAudioControl K self cmd memory).dev.m_sampler.vol.get 1 =
          self.m_sampler.vol.get 1) ∧
      (channel cmd = 1 →
        (SetAudioControl K self cmd memory).dev.m_sampler.vol.get 1 =
          volumeFromDevice (memory.Read_U16 cmd.data_address) ∧
        (SetAudioControl K self cmd memory).dev.m_sampler.vol.get 0 =
          self.m_sampler.vol.get 0) ∧
      (SetAudioControl K self cmd memory).dev.m_sampler.mute = self.m_sampler.mute ∧
      (SetAudioControl K self cmd memory).dev.m_sampler.srate = self.m_sampler.srate ∧
      (SetAudioControl K self cmd memory).dev.m_sampler =
        { self.m_sampler with vol := (SetAudioControl K self cmd memory).dev.m_sampler.vol } ∧
      (SetAudioControl K self cmd memory).dev.m_sampler.vol =
        (if (channel cmd = 0xff) then
          storeAlways (storeAlways self.m_sampler.vol 0
            (volumeFromDevice (memory.Read_U16 cmd.data_address))) 1
            (volumeFromDevice (memory.Read_U16 cmd.data_address))
        else
          storeAlways self.m_sampler.vol (channel cmd)
            (volumeFromDevice (memory.Read_U16 cmd.data_address))) := by
  have hv := volumeFromDevice_le (memory.Read_U16 cmd.data_address)
  have hmod : volumeFromDevice (memory.Read_U16 cmd.data_address) % 256 =
      volumeFromDevice (memory.Read_U16 cmd.data_address) := Nat.mod_eq_of_lt (by omega)
  rw [SetAudioControl_volume K self cmd memory hs hr hi hc]
  simp only [storeAlways, hmod]
  refine ⟨?_, ?_, ?_, trivial, trivial, trivial, trivial⟩
  · intro h; simp [h, Array2.get, Array2.set]
  · intro h; simp [h, Array2.get, Array2.set]
  · intro h; simp [h, Array2.get, Array2.set]

/-- A right-channel volume SET_CUR (`wValue = 0x0202`) on the initial device. -/
theorem C19_volume_channel_targeting_witness :
    selector ⟨7, 0x100, 0x21, 0x01, 0x0202, 0x0300, 2⟩ = 2 ∧
      (⟨7, 0x100, 0x21, 0x01, 0x0202, 0x0300, 2⟩ : CtrlMessage).request = REQUEST_SET_CUR ∧
      (⟨7, 0x100, 0x21, 0x01, 0x0202, 0x0300, 2⟩ : CtrlMessage).index = 0x0300 ∧
      (channel ⟨7, 0x100, 0x21, 0x01, 0x0202, 0x0300, 2⟩ < 2 ∨
        channel ⟨7, 0x100, 0x21, 0x01, 0x0202, 0x0300, 2⟩ = 0xff) ∧
      (SetAudioControl ipcReturn init ⟨7, 0x100, 0x21, 0x01, 0x0202, 0x0300, 2⟩
        zeroMemory).dev.m_sampler.mute = init.m_sampler.mute :=
  ⟨by decide, by decide, by decide, by decide,
    (C19_volume_channel_targeting ipcReturn init ⟨7, 0x100, 0x21, 0x01, 0x0202, 0x0300, 2⟩
      zeroMemory (by decide) (by decide) (by decide) (by decide)).2.2.2.1⟩

theorem EndpointAudioControl_set (K : IPCReturn) (self : LogitechMic) (cmd : CtrlMessage)
    (memory : Memory) (hs : selector cmd = 1) (hr : cmd.request = REQUEST_SET_CUR)
    (hi : cmd.index = 0x0081) (hc : channel cmd ≠ 0xff) :
    EndpointAudioControl K self cmd memory = { ret := 0, dev := self, memory := memory } := by
  unfold EndpointAudioControl
  simp only [hs, hr, hi, hc, if_true, if_false]

/-- C20: a sample-rate SET_CUR to the endpoint (selector 1, `wIndex` 0x0081)
always returns 0. With per-channel `cn` 0 or 1, whatever the payload, the whole
sampler state (both stored rates included), the rest of the device and the
memory are unchanged. The stored master rate `srate[0]` can only differ
afterwards when `cn = 0xff`, in which case it is the rate decoded from the
three payload bytes. -/
theorem C20_per_channel_rate_ignored (K : IPCReturn) (self : LogitechMic) (cmd : CtrlMessage)
    (memory : Memory) (hs : selector cmd = 1) (hr : cmd.request = REQUEST_SET_CUR)
    (hi : cmd.index = 0x0081) :
    (EndpointAudioControl K self cmd memory).ret = 0 ∧
      (channel cmd = 0 ∨ channel cmd = 1 →
        (EndpointAudioControl K self cmd memory).dev.m_sampler = self.m_sampler ∧
        (EndpointAudioControl K self cmd memory).dev.m_sampler.srate.get 0 =
          self.m_sampler.srate.get 0 ∧
        (EndpointAudioControl K self cmd memory).dev.m_sampler.srate.get 1 =
          self.m_sampler.srate.get 1 ∧
        (EndpointAudioControl K self cmd memory).dev = self ∧
        (EndpointAudioControl K self cmd memory).memory = memory) ∧
      ((EndpointAudioControl K self cmd memory).dev.m_sampler.srate.get 0 ≠
          self.m_sampler.srate.get 0 → channel cmd = 0xff) ∧
      (channel cmd = 0xff →
        (EndpointAudioControl K self cmd memory).dev.m_sampler.srate.get 0 =
          (memory.Read_U8 cmd.data_address
            ||| ((memory.Read_U8 (u32add cmd.data_address 1)) <<< 8)
            ||| ((memory.Read_U8 (u32add cmd.data_address 2)) <<< 16)) % 2 ^ 32) := by
  by_cases hc : channel cmd = 0xff
  · have hret : (EndpointAudioControl K self cmd memory).ret = 0 := by
      unfold EndpointAudioControl
      simp only [hs, hr, hi, hc, if_true]
      split_ifs <;> rfl
    have hval : (EndpointAudioControl K self cmd memory).dev.m_sampler.srate.get 0 =
        (memory.Read_U8 cmd.data_address
          ||| ((memory.Read_U8 (u32add cmd.data_address 1)) <<< 8)
          ||| ((memory.Read_U8 (u32add cmd.data_address 2)) <<< 16)) % 2 ^ 32 := by
      unfold EndpointAudioControl
      simp only [hs, hr, hi, hc, if_true]
      split_ifs with h
      · simp [Array2.get, Array2.set]
      · simp only [ne_eq, not_not] at h
        exact h
    refine ⟨hret, ?_, fun _ => hc, fun _ => hval⟩
    intro h01
    omega
  · rw [EndpointAudioControl_set K self cmd memory hs hr hi hc]
    refine ⟨rfl, fun _ => ⟨rfl, rfl, rfl, rfl, rfl⟩, ?_, ?_⟩
    · intro h; exact absurd rfl h
    · intro h; exact absurd h hc

/-- A left-channel sample-rate SET_CUR (`wValue = 0x0101`) on the initial device. -/
theorem C20_per_channel_rate_ignored_witness :
    selector ⟨7, 0x100, 0x22, 0x01, 0x0101, 0x0081, 3⟩ = 1 ∧
      (⟨7, 0x100, 0x22, 0x01, 0x0101, 0x0081, 3⟩ : CtrlMessage).request = REQUEST_SET_CUR ∧
      (⟨7, 0x100, 0x22, 0x01, 0x0101, 0x0081, 3⟩ : CtrlMessage).index = 0x0081 ∧
      (EndpointAudioControl ipcReturn init ⟨7, 0x100, 0x22, 0x01, 0x0101, 0x0081, 3⟩
        rateMemory).ret = 0 :=
  ⟨by decide, by decide, by decide,
    (C20_per_channel_rate_ignored ipcReturn init ⟨7, 0x100, 0x22, 0x01, 0x0101, 0x0081, 3⟩
      rateMemory (by decide) (by decide) (by decide)).1⟩

/-! ## Exact round trip, reported range, accepted SET requests, table agreement -/

theorem volumeToDevice_wraps (v : Nat) (hv : v ≤ 255) :
    (240 ≤ v ↔ 65536 ≤ (v * 0x8800 + 127) / 255 + 0x8000) := by
  omega

/-- C21: the volume round trip is exact. For every `v` in `[0, 255]`, the SET_CUR
arithmetic (16-bit subtraction of 0x8000, then `(x * 255 + 0x4400) / 0x8800`,
clamp to 255) applied to the value of the GET_CUR arithmetic
(`(v * 0x8800 + 127) / 255 + 0x8000` truncated to 16 bits) gives back `v`; the
encoded value wraps past 0xFFFF exactly for `v ≥ 240`. -/
theorem C21_volume_round_trip_exact (v : Nat) (hv : v ≤ 255) :
    volumeFromDevice (volumeToDevice v) = v ∧
      (240 ≤ v ↔ 65536 ≤ (v * 0x8800 + 127) / 255 + 0x8000) ∧
      (240 ≤ v → volumeToDevice v = (v * 0x8800 + 127) / 255 + 0x8000 - 65536) ∧
      (v < 240 → volumeToDevice v = (v * 0x8800 + 127) / 255 + 0x8000) := by
  refine ⟨volume_round_trip_exact v (by omega), volumeToDevice_wraps v hv, ?_, ?_⟩
  · intro h; unfold volumeToDevice; omega
  · intro h; unfold volumeToDevice; omega

/-- The exact round trip at volume 250, where the encoded value wraps. -/
theorem C21_volume_round_trip_exact_witness :
    (250 : Nat) ≤ 255 ∧ volumeFromDevice (volumeToDevice 250) = 250 :=
  ⟨by decide, (C21_volume_round_trip_exact 250 (by decide)).1⟩

theorem toSigned16_volumeToDevice (v : Nat) (hv : v ≤ 255) :
    toSigned16 (volumeToDevice v) = (((v * 0x8800 + 127) / 255 : Nat) : Int) - 32768 := by
  have hm : volumeToDevice v % 65536 = volumeToDevice v := by
    unfold volumeToDevice; omega
  unfold toSigned16
  rw [hm]
  unfold volumeToDevice
  split_ifs <;> omega

/-- C22: read as a signed 16-bit integer, the GET_CUR value is strictly
increasing in the volume over `[0, 255]`; it is 0x8000 (−32768) at volume 0 and
0x0800 (2048) at volume 255, which is the GET_MAX constant; hence for every
volume `v ≥ 1` it lies between the GET_MIN constant 0x8001 and the GET_MAX
constant 0x0800. -/
theorem C22_volume_within_range :
    (∀ v w, v < w → w ≤ 255 →
        toSigned16 (volumeToDevice v) < toSigned16 (volumeToDevice w)) ∧
      volumeToDevice 0 = 0x8000 ∧ toSigned16 (volumeToDevice 0) = -32768 ∧
      volumeToDevice 255 = 0x0800 ∧ toSigned16 (volumeToDevice 255) = 2048 ∧
      volumeToDevice 255 = volumeRangeConstant REQUEST_GET_MAX ∧
      (∀ v, 1 ≤ v → v ≤ 255 →
        toSigned16 (volumeRangeConstant REQUEST_GET_MIN) ≤ toSigned16 (volumeToDevice v) ∧
        toSigned16 (volumeToDevice v) ≤ toSigned16 (volumeRangeConstant REQUEST_GET_MAX)) := by
  have cmin : toSigned16 (volumeRangeConstant REQUEST_GET_MIN) = -32767 := by decide
  have cmax : toSigned16 (volumeRangeConstant REQUEST_GET_MAX) = 2048 := by decide
  refine ⟨?_, by decide, by decide, by decide, by decide, by decide, ?_⟩
  · intro v w hvw hw
    rw [toSigned16_volumeToDevice v (by omega), toSigned16_volumeToDevice w hw]
    omega
  · intro v h1 h255
    rw [cmin, cmax, toSigned16_volumeToDevice v h255]
    omega




set_option maxRecDepth 100000 in
/-- C24: the structured tables agree with the merged blob. The configuration
descriptor of `GetConfigurations` serialises to the first 9 bytes of the blob
(`wTotalLength` little-endian); the blob holds four interface descriptors, at
offsets 9, 58, 67 and 122, and the four entries of the interface table
(interface 0, and interface 1 alternate settings 0, 1, 2) serialise to those
9-byte descriptors; the blob holds two standard endpoint descriptors, at
offsets 106 and 161, and the two entries of the endpoint table agree with them
on address 0x81, attributes 0x05, maximum packet size (100 and 200) and
interval. -/
theorem C24_tables_agree_with_blob :
    (init.GetConfigurations.map ConfigDescriptor.bytes = [slice m_full_descriptor 0 9] ∧
        (init.GetConfigurations.map fun d => d.wTotalLength) = [le16 m_full_descriptor 2]) ∧
      descriptorsOfType m_full_descriptor 0x04 = [9, 58, 67, 122] ∧
      (m_interface_descriptor.map fun l => l.map InterfaceDescriptor.bytes) =
        [[slice m_full_descriptor 9 9],
          [slice m_full_descriptor 58 9, slice m_full_descriptor 67 9,
            slice m_full_descriptor 122 9]] ∧
      (m_interface_descriptor.flatten.map fun d => (d.bInterfaceNumber, d.bAlternateSetting)) =
        [(0, 0), (1, 0), (1, 1), (1, 2)] ∧
      descriptorsOfType m_full_descriptor 0x05 = [106, 161] ∧
      (m_endpoint_descriptor.map fun l => l.map EndpointDescriptor.bytes) =
        [[slice m_full_descriptor 106 7], [slice m_full_descriptor 161 7]] ∧
      (m_endpoint_descriptor.flatten.map fun d =>
          (d.bEndpointAddress, d.bmAttributes, d.wMaxPacketSize, d.bInterval)) =
        [(0x81, 0x05, 100, 1), (0x81, 0x05, 200, 1)] ∧
      ((descriptorsOfType m_full_descriptor 0x05).map fun o =>
          (m_full_descriptor.getD (o + 2) 0, m_full_descriptor.getD (o + 3) 0,
            le16 m_full_descriptor (o + 4), m_full_descriptor.getD (o + 6) 0)) =
        [(0x81, 0x05, 100, 1), (0x81, 0x05, 200, 1)] := by
  decide

theorem USBGETAID_eq (cs request index : Nat) (hc : cs < 256) (hr : request < 256)
    (hi : index < 65536) :
    USBGETAID cs request index = index + 65536 * request + 16777216 * cs := by
  have e1 : (request <<< 16) ||| index = 2 ^ 16 * request + index := by
    rw [Nat.mul_add_lt_is_or (by omega), Nat.shiftLeft_eq, Nat.mul_comm]
  have e2 : (cs <<< 24) ||| (2 ^ 16 * request + index) = 2 ^ 24 * cs + (2 ^ 16 * request + index) := by
    have h := Nat.mul_add_lt_is_or (show 2 ^ 16 * request + index < 2 ^ 24 by omega) cs
    rw [h, Nat.shiftLeft_eq, Nat.mul_comm]
  unfold USBGETAID
  rw [Nat.lor_assoc, e1, e2]
  omega

theorem selector_lt (cmd : CtrlMessage) : selector cmd < 256 := Nat.mod_lt _ (by norm_num)

/-- C23: for a request whose fields are within their types, `SetAudioControl`
returns a non-negative result if and only if the request is SET_CUR with
`wIndex` 0x0300 and the selector is 1, or 2 with `cn < 2` or `cn = 0xff`, or 7;
the result is then 0. In every other case it returns `IPC_STALL` and leaves
the device, hence the sampler state, unchanged; with selector 7 the state is
unchanged as well; SET_MIN, SET_MAX and SET_RES always fail. -/
theorem C23_set_audio_control_accepts (K : IPCReturn) (self : LogitechMic) (cmd : CtrlMessage)
    (memory : Memory) (hK : K.IPC_STALL < 0) (hq : cmd.request < 256) (hx : cmd.index < 65536) :
    (0 ≤ (SetAudioControl K self cmd memory).ret ↔ SetAccepted cmd) ∧
      (SetAccepted cmd → (SetAudioControl K self cmd memory).ret = 0) ∧
      (¬ SetAccepted cmd →
        (SetAudioControl K self cmd memory).ret = K.IPC_STALL ∧
        (SetAudioControl K self cmd memory).dev = self ∧
        (SetAudioControl K self cmd memory).dev.m_sampler = self.m_sampler) ∧
      (selector cmd = 7 →
        (SetAudioControl K self cmd memory).dev = self ∧
        (SetAudioControl K self cmd memory).dev.m_sampler = self.m_sampler) ∧
      (cmd.request = REQUEST_SET_MIN ∨ cmd.request = REQUEST_SET_MAX ∨
          cmd.request = REQUEST_SET_RES →
        (SetAudioControl K self cmd memory).ret < 0) := by
  have hs := selector_lt cmd
  have haid := USBGETAID_eq (selector cmd) cmd.request cmd.index hs hq hx
  have a1 : USBGETAID 1 REQUEST_SET_CUR 0x0300 = 0x01010300 := by decide
  have a2 : USBGETAID 2 REQUEST_SET_CUR 0x0300 = 0x02010300 := by decide
  have a7 : USBGETAID 7 REQUEST_SET_CUR 0x0300 = 0x07010300 := by decide
  have c1 : (USBGETAID (selector cmd) cmd.request cmd.index = 0x01010300) ↔
      (selector cmd = 1 ∧ cmd.request = 1 ∧ cmd.index = 0x0300) := by
    rw [haid]; omega
  have c2 : (USBGETAID (selector cmd) cmd.request cmd.index = 0x02010300) ↔
      (selector cmd = 2 ∧ cmd.request = 1 ∧ cmd.index = 0x0300) := by
    rw [haid]; omega
  have c7 : (USBGETAID (selector cmd) cmd.request cmd.index = 0x07010300) ↔
      (selector cmd = 7 ∧ cmd.request = 1 ∧ cmd.index = 0x0300) := by
    rw [haid]; omega
  have hnot : ¬ (0 ≤ K.IPC_STALL) := by omega
  unfold SetAccepted
  simp only [REQUEST_SET_CUR, REQUEST_SET_MIN, REQUEST_SET_MAX, REQUEST_SET_RES]
  unfold SetAudioControl
  simp only [a1, a2, a7, c1, c2, c7]
  by_cases h1 : selector cmd = 1 ∧ cmd.request = 1 ∧ cmd.index = 0x0300
  · obtain ⟨hs1, hr1, hi1⟩ := h1
    simp [hs1, hr1, hi1]
  by_cases h2 : selector cmd = 2 ∧ cmd.request = 1 ∧ cmd.index = 0x0300
  · obtain ⟨hs2, hr2, hi2⟩ := h2
    by_cases hc : channel cmd < 2 ∨ channel cmd = 0xff
    · simp [hs2, hr2, hi2, hc]
    · simp [hs2, hr2, hi2, hc, hnot, hK]
  by_cases h7 : selector cmd = 7 ∧ cmd.request = 1 ∧ cmd.index = 0x0300
  · obtain ⟨hs7, hr7, hi7⟩ := h7
    simp [hs7, hr7, hi7]
  simp only [h1, h2, h7, if_false]
  refine ⟨?_, ?_, ?_, ?_, ?_⟩
  · constructor
    · intro h; exact absurd h hnot
    · rintro ⟨hr, hi, hsel⟩
      rcases hsel with h | ⟨h, _⟩ | h
      · exact absurd ⟨h, hr, hi⟩ h1
      · exact absurd ⟨h, hr, hi⟩ h2
      · exact absurd ⟨h, hr, hi⟩ h7
  · rintro ⟨hr, hi, hsel⟩
    rcases hsel with h | ⟨h, _⟩ | h
    · exact absurd ⟨h, hr, hi⟩ h1
    · exact absurd ⟨h, hr, hi⟩ h2
    · exact absurd ⟨h, hr, hi⟩ h7
  · intro _; simp
  · intro _; simp
  · intro _; exact hK

/-- A SET_CUR with selector 7 is accepted; the stall code is negative. -/
theorem C23_set_audio_control_accepts_witness :
    ipcReturn.IPC_STALL < 0 ∧
      (⟨7, 0x100, 0x21, 0x01, 0x0700, 0x0300, 1⟩ : CtrlMessage).request < 256 ∧
      (⟨7, 0x100, 0x21, 0x01, 0x0700, 0x0300, 1⟩ : CtrlMessage).index < 65536 ∧
      (0 ≤ (SetAudioControl ipcReturn init ⟨7, 0x100, 0x21, 0x01, 0x0700, 0x0300, 1⟩
          zeroMemory).ret ↔ SetAccepted ⟨7, 0x100, 0x21, 0x01, 0x0700, 0x0300, 1⟩) :=
  ⟨by decide, by decide, by decide,
    (C23_set_audio_control_accepts ipcReturn init ⟨7, 0x100, 0x21, 0x01, 0x0700, 0x0300, 1⟩
      zeroMemory (by decide) (by decide) (by decide)).1⟩

end LogitechMic

end Dolphin
